import Mathlib

/-!
# Verification of the register-track-bot core (final revision, `src/bot.py`)

Shallow embedding of the data model, the ledger store operations and the
conversation-engine handlers of the final revision of the bot
(`src/bot.py`, 3006 lines).  Python dictionaries holding per-user session
state (`context.user_data`) are modelled as a record of optional fields,
SQLite tables as lists of rows, and the Telegram conversation-state
constants as their names (the module binds them to distinct integers via
one tuple assignment, so names are a faithful proxy).  Amounts are
rationals: every comparison the code performs on them (`<= 0`,
`> MAX_AMOUNT`, `isfinite`) is exact at the inputs the claims quantify
over.
-/

namespace RegisterTrackBot

/-- An exact decimal number `num / 10 ^ shift`: the value of a parsed
amount literal (`float` on the amount inputs the flows accept is exact at
the boundaries every claim tests, so the decimal value is the faithful
model; `shift` counts fraction digits). -/
structure PyDecimal where
  num : Int
  shift : Nat
  deriving Repr, DecidableEq, Inhabited

/-- The rational value of a `PyDecimal`. -/
def PyDecimal.toRat (d : PyDecimal) : ℚ := (d.num : ℚ) / 10 ^ d.shift

/-- `amount_value <= 0` on the decimal value (integer form of
`d.toRat ≤ 0`). -/
def PyDecimal.isNonPos (d : PyDecimal) : Bool := d.num ≤ 0

/-- `amount_value > MAX_AMOUNT` on the decimal value (integer form of
`999999 < d.toRat`). -/
def PyDecimal.gtMaxAmount (d : PyDecimal) : Bool :=
  (999999 : Int) * (10 : Int) ^ d.shift < d.num

/-- One row of the `expenses` or `incomes` table
(`id, user_id, date, time, category, subcategory, amount, description`). -/
structure Entry where
  id : Nat
  user_id : Int
  date : String
  time : String
  category : String
  subcategory : String
  amount : PyDecimal
  description : String
  deriving Repr, DecidableEq, Inhabited

/-- The two parallel tables of the SQLite database, plus the
`AUTOINCREMENT` counters assigning fresh row ids. -/
structure Store where
  expenses : List Entry
  incomes : List Entry
  nextExpenseId : Nat
  nextIncomeId : Nat
  deriving Repr, DecidableEq, Inhabited

/-! ## Characters, Python `str` methods

The handlers use `str.strip`, `str.lower`, `str.replace(pat, "")` and
SQLite's lexicographic string comparison; they are modelled directly on
the character lists (the Lean core `String` versions of these do not
reduce well, and the semantics modelled is Python's anyway). -/

/-- Numeric value of a list of ASCII digit characters (most significant first). -/
def digitsVal (cs : List Char) : Nat :=
  cs.foldl (fun a c => a * 10 + (c.toNat - 48)) 0

/-- `str.strip()`: drop leading and trailing whitespace. -/
def trimChars (cs : List Char) : List Char :=
  ((cs.dropWhile Char.isWhitespace).reverse.dropWhile Char.isWhitespace).reverse

/-- `str.strip()` on strings. -/
def pyStrip (s : String) : String := String.mk (trimChars s.toList)

/-- `str.lower()` on strings. -/
def pyLower (s : String) : String := String.mk (s.toList.map Char.toLower)

/-- Worker for `str.replace(pat, "")`; the fuel (the input's length)
bounds the recursion. -/
def removeAllAux (pat : List Char) : Nat → List Char → List Char
  | 0, _ => []
  | _ + 1, [] => []
  | fuel + 1, c :: rest =>
      if pat ≠ [] ∧ (c :: rest).take pat.length = pat then
        removeAllAux pat fuel ((c :: rest).drop pat.length)
      else
        c :: removeAllAux pat fuel rest

/-- `s.replace(pat, "")`: delete every occurrence of `pat`, scanning left
to right. -/
def pyReplaceDrop (s pat : String) : String :=
  String.mk (removeAllAux pat.toList s.toList.length s.toList)

/-- Lexicographic `≤` on character lists (code-point order). -/
def lexLeChars : List Char → List Char → Bool
  | [], _ => true
  | _ :: _, [] => false
  | a :: as, b :: bs => if a = b then lexLeChars as bs else decide (a < b)

/-- SQLite's string comparison (`date >= ?`, `date <= ?` on canonical
dates): lexicographic byte order, which code-point order matches on
ASCII. -/
def strLeB (a b : String) : Bool := lexLeChars a.toList b.toList

/-- `int(cs)` for a plain digit run (used on string slices). -/
def natOfChars? (cs : List Char) : Option Nat :=
  if cs ≠ [] ∧ cs.all Char.isDigit then some (digitsVal cs) else none

/-- `MAX_AMOUNT = 999999` (validation constant). -/
def MAX_AMOUNT : ℚ := 999999

/-- `AUTO_DESCRIPTION`: category -> subcategories for which description
entry is skipped (the final revision lists explicit subsets only). -/
def AUTO_DESCRIPTION : String → Option (List String)
  | "Home" => some ["Rent", "Light", "Water", "Net"]
  | "Car" => some ["Fuel", "Insurance", "Via Verde"]
  | "Health" => some ["Doctor", "Pharmacy", "Gym", "Other"]
  | "Needs" => some ["Groceries"]
  | "Incomes" => some ["Refeição", "Subsídio", "Bónus", "Salary"]
  | _ => none

/-- `TEXT_SUBCATEGORY_CATEGORIES = {"Subscriptions"}`. -/
def TEXT_SUBCATEGORY_CATEGORIES : List String := ["Subscriptions"]

/-- `SUBCATEGORIES` dict: category -> keyboard rows of subcategories. -/
def SUBCATEGORIES : String → Option (List (List String))
  | "Home" => some [["Rent", "Light"], ["Water", "Net"], ["Me Mimei"], ["Other"]]
  | "Car" => some [["Fuel", "Insurance"], ["Maintenance", "Parking"], ["Via Verde", "Other"]]
  | "Lazer" => some [["Dining Out", "Movies/Shows"], ["Hobbies", "Coffees"], ["Other"]]
  | "Travel" =>
      some [["Flights", "Hotels"], ["Transportation", "Food"], ["Activities", "Other"]]
  | "Needs" => some [["Groceries", "Clothing"], ["Personal Care"], ["Other"]]
  | "Health" =>
      some [["Doctor", "Pharmacy"], ["Hospital_Urgency", "Gym"], ["Supplements", "Other"]]
  | "Others" => some [["Gifts", "Pet"], ["Mi Mimei", "Maomao"], ["Other"]]
  | "Incomes" => some [["Refeição", "Subsídio"], ["Bónus", "Salary"], ["Interest", "Others"]]
  | _ => none

/-- `should_skip_description(category, subcategory)`. -/
def should_skip_description (category subcategory : String) : Bool :=
  match AUTO_DESCRIPTION category with
  | none => false
  | some auto_subs => subcategory ∈ auto_subs

/-- `save_expense`: routes the row to `incomes` iff `category == "Incomes"`,
otherwise to `expenses`; date is the custom date if supplied, else today. -/
def save_expense (category subcategory : String) (amount : PyDecimal) (description : String)
    (user_id : Int) (custom_date : Option String) (nowDate nowTime : String)
    (st : Store) : Store :=
  let is_income := category = "Incomes"
  let date_str := custom_date.getD nowDate
  if is_income then
    { st with
      incomes := st.incomes ++
        [⟨st.nextIncomeId, user_id, date_str, nowTime, category, subcategory,
          amount, description⟩]
      nextIncomeId := st.nextIncomeId + 1 }
  else
    { st with
      expenses := st.expenses ++
        [⟨st.nextExpenseId, user_id, date_str, nowTime, category, subcategory,
          amount, description⟩]
      nextExpenseId := st.nextExpenseId + 1 }

/-- `DELETE FROM {table} WHERE id = ? AND user_id = ?` on one table;
returns the remaining rows and the number of affected rows. -/
def sqlDelete (rows : List Entry) (entry_id : Nat) (user_id : Int) :
    List Entry × Nat :=
  (rows.filter (fun r => ¬ (r.id = entry_id ∧ r.user_id = user_id)),
   (rows.filter (fun r => r.id = entry_id ∧ r.user_id = user_id)).length)

/-- `UPDATE {table} SET amount = ? WHERE id = ? AND user_id = ?`. -/
def sqlUpdateAmount (rows : List Entry) (entry_id : Nat) (user_id : Int)
    (v : PyDecimal) : List Entry :=
  rows.map (fun r =>
    if r.id = entry_id ∧ r.user_id = user_id then { r with amount := v } else r)

/-- `UPDATE {table} SET description = ? WHERE id = ? AND user_id = ?`. -/
def sqlUpdateDescription (rows : List Entry) (entry_id : Nat) (user_id : Int)
    (v : String) : List Entry :=
  rows.map (fun r =>
    if r.id = entry_id ∧ r.user_id = user_id then { r with description := v } else r)

/-- Table selection by name: the code interpolates `"incomes"`/`"expenses"`
into the SQL; every other string would name a missing table, but the bot
only ever produces these two. -/
def tableOf (st : Store) (table : String) : List Entry :=
  if table = "incomes" then st.incomes else st.expenses

/-- Write back the rows of the named table. -/
def setTable (st : Store) (table : String) (rows : List Entry) : Store :=
  if table = "incomes" then { st with incomes := rows } else { st with expenses := rows }

/-- `SELECT * FROM {table} WHERE user_id = ? AND date >= ? AND date <= ?`
(row order is irrelevant to every property proved below, so the
`ORDER BY date DESC, time DESC` resorting is left out: it permutes the
result only). -/
def queryRange (rows : List Entry) (user_id : Int) (start_date end_date : String) :
    List Entry :=
  rows.filter (fun r => r.user_id = user_id ∧ strLeB start_date r.date ∧ strLeB r.date end_date)

/-! ## Python numeric input parsing

`int(text)` / `float(text)` on chat input.  The float model covers the
decimal literals and the `inf`/`infinity`/`nan` keywords with optional
sign and surrounding whitespace (exponents and digit-group underscores,
which no claim exercises, are left out); parsed decimals are represented
exactly as rationals. -/

/-- Result of Python `float(text)`: a finite value, a signed infinity, or NaN. -/
inductive PyNum where
  | finite (d : PyDecimal)
  | infinite (neg : Bool)
  | nan
  deriving Repr, DecidableEq

/-- `math.isfinite` on a parsed float. -/
def PyNum.isfinite : PyNum → Bool
  | .finite _ => true
  | _ => false

/-- Strip one leading `+`/`-` sign; `true` means negative. -/
def stripSign : List Char → Bool × List Char
  | '-' :: rest => (true, rest)
  | '+' :: rest => (false, rest)
  | cs => (false, cs)

/-- Value of a signed decimal literal with integer part `a` and fraction
part `b`: `±(a.b)` as the exact decimal `±(a·10^|b| + b) / 10^|b|`. -/
def ratOfParts (neg : Bool) (a b : List Char) : PyDecimal :=
  ⟨(if neg then -1 else 1) * (digitsVal a * 10 ^ b.length + digitsVal b : Int), b.length⟩

/-- `float(text)`: strips whitespace, then an optional sign, then either an
`inf`/`infinity`/`nan` keyword (case-insensitive) or a decimal literal
`digits`, `digits.digits`, `digits.` or `.digits`. -/
def parseFloat? (s : String) : Option PyNum :=
  let (neg, body) := stripSign (trimChars s.toList)
  let lower := body.map Char.toLower
  if lower = "inf".toList ∨ lower = "infinity".toList then some (.infinite neg)
  else if lower = "nan".toList then some .nan
  else
    match body.splitOn '.' with
    | [a] =>
        if a ≠ [] ∧ a.all Char.isDigit then some (.finite (ratOfParts neg a [])) else none
    | [a, b] =>
        if (a ≠ [] ∨ b ≠ []) ∧ a.all Char.isDigit ∧ b.all Char.isDigit then
          some (.finite (ratOfParts neg a b))
        else none
    | _ => none

/-- `int(text)`: strips whitespace, optional sign, then decimal digits. -/
def parseInt? (s : String) : Option Int :=
  let (neg, body) := stripSign (trimChars s.toList)
  if body ≠ [] ∧ body.all Char.isDigit then
    some ((if neg then -1 else 1) * (digitsVal body : Int))
  else none

/-! ## Conversation-state constants and handler outcomes

Line 43 of `src/bot.py` binds exactly these 26 names to `range(26)`:
any other state name evaluated in a handler raises a `NameError`.
States are modelled by their names (distinct names map to distinct
integers, so this is a faithful proxy). -/

/-- The 26 conversation-state constants bound by the tuple assignment on line 43. -/
def stateConstNames : List String :=
  ["ADD_TYPE", "CATEGORY", "SUBCATEGORY", "AMOUNT", "DESCRIPTION", "EDIT_FIELD",
   "PDF_PERIOD", "PDF_MONTH", "PDF_YEAR", "SUMMARY_PERIOD", "SUMMARY_MONTH",
   "SUMMARY_YEAR", "SUMMARY_DAY", "EXPENSE_PERIOD", "EXPENSE_MONTH", "EXPENSE_YEAR",
   "EXPENSE_DAY", "EDIT_PERIOD", "EDIT_MONTH", "EDIT_YEAR", "EDIT_DAY",
   "DELETE_PERIOD", "DELETE_MONTH", "DELETE_YEAR", "DELETE_DAY", "STATS_MONTH"]

/-- What a handler hands back to the conversation framework: a next state,
`ConversationHandler.END`, or a bare `return` (`None`, state unchanged). -/
inductive ConvResult where
  | state (name : String)
  | endConv
  | noneRet
  deriving Repr, DecidableEq

/-- The Python exceptions the embedding distinguishes. -/
inductive PyErr where
  | nameError
  | keyError
  deriving Repr, DecidableEq

/-- Outcome of one handler invocation: a normal return, or an exception that
escapes the handler into the framework. -/
inductive PyOutcome where
  | ret (r : ConvResult)
  | exn (e : PyErr)
  deriving Repr, DecidableEq

/-- Evaluating `return NAME` for a module-level state constant: the state if
the name is bound at module level, otherwise a `NameError`. -/
def returnState (n : String) : PyOutcome :=
  if n ∈ stateConstNames then .ret (.state n) else .exn .nameError

/-! ## Session state (`context.user_data`)

One transient per-user dictionary; modelled as a record of optional
fields (the keys the core flows use).  `context.user_data.clear()` is
`{}` (all fields `none`). -/

/-- The snapshot of a selected row kept under `"edit_entry_data"`. -/
structure EditEntryData where
  category : String
  subcategory : String
  amount : PyDecimal
  description : String
  deriving Repr, DecidableEq, Inhabited

/-- `context.user_data` for one user. -/
structure UserData where
  entry_type : Option String := none
  category : Option String := none
  subcategory : Option String := none
  amount : Option PyDecimal := none
  skip_description : Option Bool := none
  target_date : Option String := none
  viewing_type : Option String := none
  delete_action : Option String := none
  edit_action : Option String := none
  delete_entries : Option (List Entry) := none
  edit_entries : Option (List Entry) := none
  period_type : Option String := none
  period_value : Option String := none
  target_table : Option String := none
  editing_field : Option String := none
  edit_entry_id : Option Nat := none
  edit_entry_table : Option String := none
  edit_entry_type : Option String := none
  edit_entry_data : Option EditEntryData := none
  stats_month_mapping : Option (List (String × String)) := none
  deriving Repr, DecidableEq, Inhabited

/-- `MAX_DESCRIPTION = 200`. -/
def MAX_DESCRIPTION : Nat := 200

/-- `MAX_SUBSCRIPTION = 50`. -/
def MAX_SUBSCRIPTION : Nat := 50

/-! ## Add flow handlers (`/start`, `/add` conversation) -/

/-- `category` handler (CATEGORY state): strips the `"💸 "` menu emoji,
stores whatever remains as the category, then branches: free-text
subcategory categories and catalogued categories go to SUBCATEGORY;
anything else skips straight to AMOUNT. -/
def categoryHandler (input : String) (ud : UserData) : ConvResult × UserData :=
  let selected_category := pyStrip (pyReplaceDrop input "💸 ")
  let ud1 := { ud with category := some selected_category }
  if selected_category ∈ TEXT_SUBCATEGORY_CATEGORIES then
    (.state "SUBCATEGORY", ud1)
  else if (SUBCATEGORIES selected_category).isSome then
    (.state "SUBCATEGORY", ud1)
  else
    (.state "AMOUNT", ud1)

/-- `subcategory` handler (SUBCATEGORY state): strips menu emojis, length
checks for free-text (subscription) categories, stores the subcategory and
sets the `skip_description` flag when configured. -/
def subcategoryHandler (input : String) (ud : UserData) : PyOutcome × UserData :=
  let selected := pyStrip (pyReplaceDrop (pyReplaceDrop input "💸 ") "💵 ")
  match ud.category with
  | none => (.exn .keyError, ud)
  | some category =>
    if category ∈ TEXT_SUBCATEGORY_CATEGORIES ∧ selected.length > MAX_SUBSCRIPTION then
      (.ret (.state "SUBCATEGORY"), ud)
    else if category ∈ TEXT_SUBCATEGORY_CATEGORIES ∧ selected.length < 2 then
      (.ret (.state "SUBCATEGORY"), ud)
    else
      let ud1 := { ud with subcategory := some selected }
      let ud2 :=
        if should_skip_description category selected then
          { ud1 with skip_description := some true }
        else ud1
      (.ret (.state "AMOUNT"), ud2)

/-- `amount` handler (AMOUNT state): `float(text)`, then the three checks
(`isfinite`, `> 0`, `≤ MAX_AMOUNT`); every failure re-prompts the AMOUNT
state.  On success the value is stored; with `skip_description` set the
entry is persisted at once with description `"N/A"` and the session is
cleared, otherwise the flow moves to DESCRIPTION. -/
def amountHandler (input : String) (user_id : Int) (nowDate nowTime : String)
    (ud : UserData) (st : Store) : PyOutcome × UserData × Store :=
  match parseFloat? input with
  | none => (.ret (.state "AMOUNT"), ud, st)
  | some v =>
      match v with
      | .infinite _ => (.ret (.state "AMOUNT"), ud, st)
      | .nan => (.ret (.state "AMOUNT"), ud, st)
      | .finite q =>
        if q.isNonPos then (.ret (.state "AMOUNT"), ud, st)
        else if q.gtMaxAmount then (.ret (.state "AMOUNT"), ud, st)
        else
          let ud1 := { ud with amount := some q }
          if ud1.skip_description.getD false then
            match ud1.category with
            | none => (.exn .keyError, ud1, st)
            | some category =>
              let subcat := ud1.subcategory.getD "N/A"
              let st' := save_expense category subcat q "N/A" user_id
                ud1.target_date nowDate nowTime st
              (.ret .endConv, {}, st')
          else
            (.ret (.state "DESCRIPTION"), ud1, st)

/-- `description` handler (DESCRIPTION state, terminal of the add flow):
truncates over-long text to `MAX_DESCRIPTION`, persists the entry, clears
the session. -/
def descriptionHandler (input : String) (user_id : Int) (nowDate nowTime : String)
    (ud : UserData) (st : Store) : PyOutcome × UserData × Store :=
  let desc := if input.length > MAX_DESCRIPTION then input.take MAX_DESCRIPTION else input
  match ud.category with
  | none => (.exn .keyError, ud, st)
  | some category =>
    match ud.amount with
    | none => (.exn .keyError, ud, st)
    | some amt =>
      let subcat := ud.subcategory.getD "N/A"
      let st' := save_expense category subcat amt desc user_id
        ud.target_date nowDate nowTime st
      (.ret .endConv, {}, st')

/-! ## Calendar dates and `strptime`-style parsing

`datetime.strptime` with the formats the bot uses: `%d/%m/%y`
(edit/delete/expense day pickers) and `%Y-%m-%d` (summary-day
validation).  CPython's `_strptime` matches `%d` against a 1–2 digit
number in 1–31, `%m` against 1–12, `%y` against exactly two digits
(pivoting `00`–`68` to 2000–2068 and `69`–`99` to 1969–1999) and `%Y`
against exactly four digits, requires the whole string to match, and the
`datetime` constructor then rejects days beyond the month's length. -/

/-- Gregorian leap year. -/
def isLeap (y : Nat) : Bool := (y % 4 = 0 ∧ y % 100 ≠ 0) ∨ y % 400 = 0

/-- Days in a month. -/
def daysInMonth (y m : Nat) : Nat :=
  if m = 2 then (if isLeap y then 29 else 28)
  else if m = 4 ∨ m = 6 ∨ m = 9 ∨ m = 11 then 30
  else 31

/-- A calendar date. -/
structure YMD where
  y : Nat
  m : Nat
  d : Nat
  deriving Repr, DecidableEq, Inhabited

/-- A valid calendar date in `datetime`'s supported range. -/
def validYMD (dt : YMD) : Bool :=
  1 ≤ dt.y ∧ dt.y ≤ 9999 ∧ 1 ≤ dt.m ∧ dt.m ≤ 12 ∧ 1 ≤ dt.d ∧ dt.d ≤ daysInMonth dt.y dt.m

/-- ASCII digit for `n % 10`. -/
def digitChar (n : Nat) : Char := Char.ofNat (48 + n % 10)

/-- Two zero-padded decimal digits (`"%02d"` of a value below 100,
also `strftime`'s `%d`/`%m`/`%y`). -/
def pad2 (n : Nat) : List Char := [digitChar (n / 10), digitChar n]

/-- Four zero-padded decimal digits (`strftime`'s `%Y` below 10000). -/
def pad4 (n : Nat) : List Char := pad2 (n / 100) ++ pad2 (n % 100)

/-- `pad2` as a string. -/
def pad2s (n : Nat) : String := String.mk (pad2 n)

/-- Digit-peeling worker for `natDecimal` (the fuel argument only bounds
the recursion; `n + 1` steps always suffice). -/
def natDecimalAux : Nat → Nat → List Char
  | 0, _ => []
  | fuel + 1, n =>
      if n < 10 then [digitChar n] else natDecimalAux fuel (n / 10) ++ [digitChar n]

/-- Decimal rendering of a natural number (Python `f"{n}"`), most
significant digit first, no padding. -/
def natDecimal (n : Nat) : List Char := natDecimalAux (n + 1) n

/-- `%d` of `_strptime`: one or two digits, value 1–31, no `0`/`00`. -/
def dayTok (cs : List Char) : Bool :=
  cs.all Char.isDigit ∧
    ((cs.length = 1 ∧ 1 ≤ digitsVal cs) ∨
     (cs.length = 2 ∧ 1 ≤ digitsVal cs ∧ digitsVal cs ≤ 31))

/-- `%m` of `_strptime`: one or two digits, value 1–12. -/
def monthTok (cs : List Char) : Bool :=
  cs.all Char.isDigit ∧
    ((cs.length = 1 ∧ 1 ≤ digitsVal cs) ∨
     (cs.length = 2 ∧ 1 ≤ digitsVal cs ∧ digitsVal cs ≤ 12))

/-- `%y` of `_strptime`: exactly two digits. -/
def yearTok2 (cs : List Char) : Bool := cs.all Char.isDigit ∧ cs.length = 2

/-- `strptime(s, "%d/%m/%y")` followed by the `datetime` constructor's
calendar check. -/
def parseDMY (s : String) : Option YMD :=
  match s.toList.splitOn '/' with
  | [dcs, mcs, ycs] =>
      if dayTok dcs ∧ monthTok mcs ∧ yearTok2 ycs then
        let d := digitsVal dcs
        let m := digitsVal mcs
        let yy := digitsVal ycs
        let y := if yy ≤ 68 then 2000 + yy else 1900 + yy
        if d ≤ daysInMonth y m then some ⟨y, m, d⟩ else none
      else none
  | _ => none

/-- `strftime("%d/%m/%y")`: the `DD/MM/YY` rendering convention. -/
def formatDMY (dt : YMD) : String :=
  String.mk (pad2 dt.d ++ '/' :: pad2 dt.m ++ '/' :: pad2 (dt.y % 100))

/-- `strftime("%Y-%m-%d")`: the canonical storage form. -/
def toCanonical (dt : YMD) : String :=
  String.mk (pad4 dt.y ++ '-' :: pad2 dt.m ++ '-' :: pad2 dt.d)

/-- `strptime(s, "%Y-%m-%d")` followed by the calendar check. -/
def parseCanonical (s : String) : Option YMD :=
  match s.toList.splitOn '-' with
  | [ycs, mcs, dcs] =>
      if (ycs.all Char.isDigit ∧ ycs.length = 4) ∧ monthTok mcs ∧ dayTok dcs then
        let y := digitsVal ycs
        let m := digitsVal mcs
        let d := digitsVal dcs
        if 1 ≤ y ∧ d ≤ daysInMonth y m then some ⟨y, m, d⟩ else none
      else none
  | _ => none

/-- The canonical `YYYY-MM-DD` surface shape (four digits, dash, two
digits, dash, two digits). -/
def isCanonicalShape (s : String) : Bool :=
  match s.toList.splitOn '-' with
  | [ycs, mcs, dcs] =>
      ycs.all Char.isDigit ∧ ycs.length = 4 ∧ mcs.all Char.isDigit ∧ mcs.length = 2 ∧
        dcs.all Char.isDigit ∧ dcs.length = 2
  | _ => false

/-- `handle_expense_day` (also the delete-day and edit-day handlers, which
are textually identical): strip, `strptime("%d/%m/%y")`; failure
re-prompts the same day state (`none`), success hands the canonical
`YYYY-MM-DD` string to the period query (`some`). -/
def handleExpenseDay (input : String) : Option String :=
  (parseDMY (pyStrip input)).map toCanonical

/-- The regex dispatch of `handle_summary_day`: `DD/MM` (current year),
`DD/MM/YYYY`, or `YYYY-MM-DD`, then a `strptime("%Y-%m-%d")` validation
of the assembled string; every failure re-prompts SUMMARY_DAY (`none`). -/
def handleSummaryDay (input : String) (currentYear : Nat) : Option String :=
  let cs := trimChars input.toList
  let target : Option (List Char) :=
    match cs.splitOn '/' with
    | [dcs, mcs] =>
        if dcs.all Char.isDigit ∧ 1 ≤ dcs.length ∧ dcs.length ≤ 2 ∧
            mcs.all Char.isDigit ∧ 1 ≤ mcs.length ∧ mcs.length ≤ 2 then
          some (natDecimal currentYear ++ '-' :: pad2 (digitsVal mcs) ++
            '-' :: pad2 (digitsVal dcs))
        else none
    | [dcs, mcs, ycs] =>
        if dcs.all Char.isDigit ∧ 1 ≤ dcs.length ∧ dcs.length ≤ 2 ∧
            mcs.all Char.isDigit ∧ 1 ≤ mcs.length ∧ mcs.length ≤ 2 ∧
            ycs.all Char.isDigit ∧ ycs.length = 4 then
          some (ycs ++ '-' :: pad2 (digitsVal mcs) ++ '-' :: pad2 (digitsVal dcs))
        else none
    | _ => if isCanonicalShape (pyStrip input) then some cs else none
  match target with
  | none => none
  | some t => if (parseCanonical (String.mk t)).isSome then some (String.mk t) else none

/-- `get_month_date_range("YYYY-MM")`: first and last day of that month
(the code computes the last day via `datetime` arithmetic, which equals
the month length; December is special-cased with an unpadded
`f"{year}-12-31"`). -/
def get_month_date_range (year_month : String) : String × String :=
  let year := (natOfChars? (year_month.toList.take 4)).getD 0
  let month := (natOfChars? ((year_month.toList.drop 5).take 2)).getD 0
  if month = 12 then
    (year_month ++ "-01", String.mk (natDecimal year) ++ "-12-31")
  else
    (year_month ++ "-01", year_month ++ "-" ++ pad2s (daysInMonth year month))

/-- The period → inclusive date range dispatch shared by
`show_delete_entries` and `show_edit_entries`. -/
def periodRange (today period_type period_value : String) : Option (String × String) :=
  if period_type = "today" then some (today, today)
  else if period_type = "day" then some (period_value, period_value)
  else if period_type = "month" then some (get_month_date_range period_value)
  else if period_type = "year" then
    some (period_value ++ "-01-01", period_value ++ "-12-31")
  else none

/-! ## Delete flow -/

/-- The `finally` block of `handle_delete_number`: always pops
`delete_entries`, `period_type`, `period_value`, `target_table`,
`entry_type` and `delete_action` ("Always clear the delete context"). -/
def deleteFinallyPop (ud : UserData) : UserData :=
  { ud with delete_entries := none, period_type := none, period_value := none,
            target_table := none, entry_type := none, delete_action := none }

/-- `handle_delete_number`: `int(text)`; with a cached list and an in-range
choice, the selected row is deleted from `incomes` iff its category is
`"Incomes"`, else from `expenses`, always `WHERE id = ? AND user_id = ?`.
A `ValueError` re-prompt runs `return DELETE_NUMBER` inside the `except`
clause, so an unbound name escapes uncaught; the out-of-range re-prompt
runs it inside `try`, where a `NameError` is caught by `except Exception`
and turned into a generic error plus `ConversationHandler.END`.  The
`finally` block pops the delete context on every path. -/
def deleteNumberHandler (input : String) (user_id : Int) (ud : UserData)
    (st : Store) : PyOutcome × UserData × Store :=
  match parseInt? input with
  | none =>
      (returnState "DELETE_NUMBER", deleteFinallyPop ud, st)
  | some choice =>
      let entries := ud.delete_entries.getD []
      if entries = [] ∨ choice < 1 ∨ choice > (entries.length : Int) then
        (match returnState "DELETE_NUMBER" with
         | .ret r => .ret r
         | .exn _ => .ret .endConv,
         deleteFinallyPop ud, st)
      else
        let row := entries.getD (choice - 1).toNat default
        let is_income := row.category = "Incomes"
        let table := if is_income then "incomes" else "expenses"
        let (rows', _) := sqlDelete (tableOf st table) row.id user_id
        (.ret .endConv, deleteFinallyPop ud, setTable st table rows')

/-- `show_delete_entries`: queries both tables over the period range,
ends the conversation when nothing matched, otherwise caches
`expenses ++ incomes` under `delete_entries` (plus `period_type` /
`period_value`) and evaluates `return DELETE_NUMBER`. -/
def showDeleteEntries (user_id : Int) (today : String) (period_type period_value : String)
    (ud : UserData) (st : Store) : PyOutcome × UserData :=
  match periodRange today period_type period_value with
  | none => (.ret .endConv, ud)
  | some (s, e) =>
    let expenses := queryRange st.expenses user_id s e
    let incomes := queryRange st.incomes user_id s e
    if expenses = [] ∧ incomes = [] then (.ret .endConv, ud)
    else
      (returnState "DELETE_NUMBER",
       { ud with delete_entries := some (expenses ++ incomes),
                 period_type := some period_type, period_value := some period_value })

/-! ## Edit flow -/

/-- `show_edit_entries`: same query and cache shape as the delete variant,
keyed `edit_entries`; it never touches `target_table`. -/
def showEditEntries (user_id : Int) (today : String) (period_type period_value : String)
    (ud : UserData) (st : Store) : PyOutcome × UserData :=
  match periodRange today period_type period_value with
  | none => (.ret .endConv, ud)
  | some (s, e) =>
    let expenses := queryRange st.expenses user_id s e
    let incomes := queryRange st.incomes user_id s e
    if expenses = [] ∧ incomes = [] then (.ret .endConv, ud)
    else
      (returnState "EDIT_NUMBER",
       { ud with edit_entries := some (expenses ++ incomes),
                 period_type := some period_type, period_value := some period_value })

/-- `handle_edit_number`: reads the cached list, the target table
(defaulting to `"expenses"` when the key is absent) and the entry type;
out-of-range input replies and falls through (`return None`, state and
cache untouched); an in-range choice snapshots the row into
`edit_entry_id` / `edit_entry_table` / `edit_entry_type` /
`edit_entry_data`, drops the cache and moves to EDIT_FIELD.  Non-numeric
input raises `ValueError`, whose handler evaluates the unbound
`EDIT_NUMBER` name. -/
def editNumberHandler (input : String) (ud : UserData) : PyOutcome × UserData :=
  match parseInt? input with
  | none => (returnState "EDIT_NUMBER", ud)
  | some choice =>
      let entries := ud.edit_entries.getD []
      let table := ud.target_table.getD "expenses"
      let entry_type := ud.entry_type.getD "Expense"
      if entries = [] ∨ choice < 1 ∨ choice > (entries.length : Int) then
        (.ret .noneRet, ud)
      else
        let row := entries.getD (choice - 1).toNat default
        (.ret (.state "EDIT_FIELD"),
         { ud with
            edit_entry_id := some row.id, edit_entry_table := some table,
            edit_entry_type := some entry_type,
            edit_entry_data :=
              some ⟨row.category, row.subcategory, row.amount, row.description⟩,
            edit_entries := none })

/-- The `except Exception` cleanup of `handle_edit_field_choice`. -/
def fieldChoiceExceptPop (ud : UserData) : UserData :=
  { ud with edit_entry_id := none, edit_entry_table := none,
            edit_entry_data := none, editing_field := none }

/-- `handle_edit_field_choice`: `"amount"`/`"description"` set
`editing_field` and evaluate `return EDIT_VALUE` — unbound, so the
`NameError` is caught by the handler's own `except Exception`, which pops
the edit context (including the just-set `editing_field`) and ends the
conversation; anything else re-prompts EDIT_FIELD. -/
def editFieldChoiceHandler (input : String) (ud : UserData) : PyOutcome × UserData :=
  let choice := pyStrip (pyLower input)
  if choice = "amount" ∨ choice = "description" then
    let ud1 := { ud with editing_field := some choice }
    match ud1.edit_entry_data with
    | none => (.ret .endConv, fieldChoiceExceptPop ud1)
    | some _ =>
      match returnState "EDIT_VALUE" with
      | .ret r => (.ret r, ud1)
      | .exn _ => (.ret .endConv, fieldChoiceExceptPop ud1)
  else
    (.ret (.state "EDIT_FIELD"), ud)

/-- The `finally` block of `handle_edit_value`. -/
def editFinallyPop (ud : UserData) : UserData :=
  { ud with edit_entry_id := none, edit_entry_table := none, edit_entry_type := none,
            edit_entry_data := none, editing_field := none, edit_action := none }

/-- The session left by every exceptional or successful exit of
`handle_edit_value` (its `except Exception` cleanup and its success-path
pops both also drop `edit_entries`; the `finally` pops run afterwards in
all cases). -/
def editExceptionExit (ud : UserData) : UserData :=
  editFinallyPop { ud with edit_entries := none }

/-- `handle_edit_value`: for `editing_field = "amount"` the input goes
through `float` plus the three amount checks — each rejection evaluates
the unbound `EDIT_VALUE` name (`ValueError` → uncaught `NameError` from
the `except` clause; in-`try` rejections → caught, generic error, END).
A valid value is written with
`UPDATE {table} SET field = ? WHERE id = ? AND user_id = ?` and mirrored
into `edit_entry_data`; missing session keys surface as `KeyError`,
caught by `except Exception`. -/
def editValueHandler (input : String) (user_id : Int) (ud : UserData)
    (st : Store) : PyOutcome × UserData × Store :=
  let field := ud.editing_field
  if field = some "amount" then
    match parseFloat? input with
    | none =>
        (returnState "EDIT_VALUE", editFinallyPop ud, st)
    | some v =>
      match v with
      | .infinite _ | .nan =>
        (match returnState "EDIT_VALUE" with
         | .ret r => (.ret r, editFinallyPop ud, st)
         | .exn _ => (.ret .endConv, editExceptionExit ud, st))
      | .finite q =>
        if q.isNonPos ∨ q.gtMaxAmount then
          (match returnState "EDIT_VALUE" with
           | .ret r => (.ret r, editFinallyPop ud, st)
           | .exn _ => (.ret .endConv, editExceptionExit ud, st))
        else
          match ud.edit_entry_id, ud.edit_entry_table, ud.edit_entry_data with
          | some entry_id, some table, some data =>
              let rows' := sqlUpdateAmount (tableOf st table) entry_id user_id q
              (.ret .endConv,
               editExceptionExit { ud with edit_entry_data := some { data with amount := q } },
               setTable st table rows')
          | _, _, _ => (.ret .endConv, editExceptionExit ud, st)
  else if field = some "description" then
    match ud.edit_entry_id, ud.edit_entry_table, ud.edit_entry_data with
    | some entry_id, some table, some data =>
        let rows' := sqlUpdateDescription (tableOf st table) entry_id user_id input
        (.ret .endConv, editExceptionExit { ud with edit_entry_data := some { data with description := input } },
         setTable st table rows')
    | _, _, _ => (.ret .endConv, editExceptionExit ud, st)
  else
    match ud.edit_entry_id, ud.edit_entry_table, ud.edit_entry_data with
    | some _, some _, some _ => (.ret .endConv, editExceptionExit ud, st)
    | _, _, _ => (.ret .endConv, editExceptionExit ud, st)

/-! ## Top-level commands

Each conversation entry point starts with `context.user_data.clear()`
(for `/start` and `/add` preceded by a cancellation notice when the dict
is non-empty) and then writes only its own keys. -/

/-- Descending insertion into a string list (`ORDER BY ... DESC`). -/
def insertDesc (x : String) : List String → List String
  | [] => [x]
  | y :: ys => if strLeB x y then y :: insertDesc x ys else x :: y :: ys

/-- Sort strings descending. -/
def sortDesc (l : List String) : List String := l.foldr insertDesc []

/-- `get_available_months`: distinct `substr(date, 1, 7)` over both
tables of one user, descending. -/
def get_available_months (st : Store) (user_id : Int) : List String :=
  sortDesc
    (((st.expenses.filter (fun r => r.user_id = user_id)).map (fun r => r.date.take 7) ++
      (st.incomes.filter (fun r => r.user_id = user_id)).map (fun r => r.date.take 7)).dedup)

/-- The month-name table of `format_month_for_display`. -/
def monthDisplayName (m : String) : String :=
  match m with
  | "01" => "January" | "02" => "February" | "03" => "March" | "04" => "April"
  | "05" => "May" | "06" => "June" | "07" => "July" | "08" => "August"
  | "09" => "September" | "10" => "October" | "11" => "November" | "12" => "December"
  | other => other

/-- `format_month_for_display("YYYY-MM") = "MonthName YYYY"`. -/
def format_month_for_display (year_month : String) : String :=
  monthDisplayName ((year_month.drop 5).take 2) ++ " " ++ year_month.take 4

/-- The top-level commands that root a multi-step flow. -/
inductive TopCommand where
  | start | add | edit | delete | summary | pdf | stats | expense | income
  deriving Repr, DecidableEq

/-- Entry handler of a top-level command: `context.user_data.clear()`
followed by that command's own session keys and first state.  `/stats`
additionally reads the ledger to build its month menu (and ends at once
when the user has no data). -/
def startTopCommand (c : TopCommand) (user_id : Int) (_ud : UserData) (st : Store) :
    UserData × ConvResult :=
  match c with
  | .start => ({}, .state "ADD_TYPE")
  | .add => ({}, .state "ADD_TYPE")
  | .edit => ({ edit_action := some "edit" }, .state "EDIT_PERIOD")
  | .delete => ({ delete_action := some "delete" }, .state "DELETE_PERIOD")
  | .summary => ({}, .state "SUMMARY_PERIOD")
  | .pdf => ({}, .state "PDF_PERIOD")
  | .stats =>
      let months := get_available_months st user_id
      if months = [] then ({}, .endConv)
      else
        ({ stats_month_mapping := some (months.map fun m => (format_month_for_display m, m)) },
         .state "STATS_MONTH")
  | .expense => ({ viewing_type := some "expense" }, .state "EXPENSE_PERIOD")
  | .income => ({ viewing_type := some "income" }, .state "EXPENSE_PERIOD")

/-! ## Aggregates -/

/-- A monthly expense aggregate: sum of the amounts of one user's rows of
the `expenses` table within the month (the summary/stats queries scan the
`expenses` table only). -/
def monthlyExpenseTotal (st : Store) (user_id : Int) (year_month : String) : ℚ :=
  ((st.expenses.filter
      (fun r => r.user_id = user_id ∧ r.date.take 7 = year_month)).map
    (fun r => r.amount.toRat)).sum

/-! ## Basic lemmas -/

/-- The integer comparison `isNonPos` agrees with `≤ 0` on the decimal's value. -/
theorem isNonPos_iff (d : PyDecimal) : d.isNonPos = true ↔ d.toRat ≤ 0 := by
  unfold PyDecimal.isNonPos PyDecimal.toRat
  rw [decide_eq_true_eq, div_nonpos_iff]
  constructor
  · intro h
    exact Or.inr ⟨by exact_mod_cast h, by positivity⟩
  · rintro (⟨_, h⟩ | ⟨h, _⟩)
    · have hp : (0 : ℚ) < 10 ^ d.shift := by positivity
      exact absurd h (not_le.mpr hp)
    · exact_mod_cast h

/-- The integer comparison `gtMaxAmount` agrees with `> 999999` on the
decimal's value. -/
theorem gtMaxAmount_iff (d : PyDecimal) : d.gtMaxAmount = true ↔ MAX_AMOUNT < d.toRat := by
  unfold PyDecimal.gtMaxAmount PyDecimal.toRat MAX_AMOUNT
  rw [decide_eq_true_eq, lt_div_iff₀ (by positivity)]
  constructor
  · intro h; exact_mod_cast h
  · intro h; exact_mod_cast h

end RegisterTrackBot

namespace RegisterTrackBot

/-! ## Claim theorems -/

/-- C8: starting any top-level command (`/start`, `/add`, `/edit`,
`/delete`, `/summary`, `/pdf`, `/stats`, `/expense`, `/income`) discards
every field of the prior session — the resulting session is independent
of the superseded one, and in particular carries no half-entered amount,
category, subcategory or cached candidate list from it; the engine keys
one session per user, so the replacement leaves at most one active
session. -/
theorem session_replacement (c : TopCommand) (user_id : Int) (ud ud' : UserData)
    (st : Store) :
    startTopCommand c user_id ud st = startTopCommand c user_id ud' st ∧
    (startTopCommand c user_id ud st).1.amount = none ∧
    (startTopCommand c user_id ud st).1.category = none ∧
    (startTopCommand c user_id ud st).1.subcategory = none ∧
    (startTopCommand c user_id ud st).1.edit_entries = none ∧
    (startTopCommand c user_id ud st).1.delete_entries = none := by
  cases c
  all_goals simp only [startTopCommand]
  all_goals try split
  all_goals simp

/-- C4 (counterexample): in the CATEGORY state, the input `"Garbage"`,
which matches no catalog category, is not re-prompted: the handler stores
it as the category and advances to the AMOUNT state. -/
theorem category_mismatch_advances :
    categoryHandler "Garbage" {} =
      (ConvResult.state "AMOUNT", { category := some "Garbage" }) ∧
    ConvResult.state "AMOUNT" ≠ ConvResult.state "CATEGORY" := by
  constructor
  · decide
  · decide

/-- C4 (amended): the CATEGORY-state handler never re-prompts: an input
whose emoji-stripped form matches a free-text category or a catalogued
category advances to SUBCATEGORY, and every other input is stored as the
category and advances directly to AMOUNT; the handler never returns the
CATEGORY state itself. -/
theorem category_routing_amended (input : String) (ud : UserData) :
    categoryHandler input ud =
      (if pyStrip (pyReplaceDrop input "💸 ") ∈ TEXT_SUBCATEGORY_CATEGORIES ∨
          (SUBCATEGORIES (pyStrip (pyReplaceDrop input "💸 "))).isSome
        then ConvResult.state "SUBCATEGORY" else ConvResult.state "AMOUNT",
       { ud with category := some (pyStrip (pyReplaceDrop input "💸 ")) }) ∧
    (categoryHandler input ud).1 ≠ ConvResult.state "CATEGORY" := by
  simp only [categoryHandler]
  by_cases h1 : pyStrip (pyReplaceDrop input "💸 ") ∈ TEXT_SUBCATEGORY_CATEGORIES
  · simp [h1]
  · by_cases h2 : (SUBCATEGORIES (pyStrip (pyReplaceDrop input "💸 "))).isSome
    · simp [h1, h2]
    · simp [h1, h2]

/-- C3: a completed insert lands in the `incomes` table iff the collected
category is the literal `"Incomes"` and in the `expenses` table otherwise
(each time as exactly one appended row, the other table untouched), and a
monthly aggregate over the `expenses` table is unchanged by any income
insert. -/
theorem kind_routing (cat sub : String) (amt : PyDecimal) (desc : String)
    (uid : Int) (cd : Option String) (nowD nowT : String) (st : Store)
    (uid2 : Int) (ym : String) (sub2 : String) (amt2 : PyDecimal) (desc2 : String)
    (cd2 : Option String) :
    (save_expense cat sub amt desc uid cd nowD nowT st).incomes =
      (if cat = "Incomes" then
        st.incomes ++ [⟨st.nextIncomeId, uid, cd.getD nowD, nowT, cat, sub, amt, desc⟩]
      else st.incomes) ∧
    (save_expense cat sub amt desc uid cd nowD nowT st).expenses =
      (if cat = "Incomes" then st.expenses
      else st.expenses ++ [⟨st.nextExpenseId, uid, cd.getD nowD, nowT, cat, sub, amt, desc⟩]) ∧
    monthlyExpenseTotal (save_expense "Incomes" sub2 amt2 desc2 uid2 cd2 nowD nowT st)
        uid2 ym = monthlyExpenseTotal st uid2 ym := by
  refine ⟨?_, ?_, ?_⟩
  · unfold save_expense; split <;> simp_all
  · unfold save_expense; split <;> simp_all
  · unfold save_expense monthlyExpenseTotal; simp

end RegisterTrackBot

namespace RegisterTrackBot

/-- C10: `DELETE_NUMBER`, `EDIT_NUMBER` and `EDIT_VALUE` are not among the
26 names bound by the state-constant tuple, so whenever a delete or edit
period selection matches at least one entry, `show_delete_entries` /
`show_edit_entries` raise a `NameError` evaluating their return value;
their numbered-selection state is never entered without this error. -/
theorem undefined_selection_states :
    ("DELETE_NUMBER" ∉ stateConstNames ∧ "EDIT_NUMBER" ∉ stateConstNames ∧
      "EDIT_VALUE" ∉ stateConstNames) ∧
    ∀ (user_id : Int) (today pt pv s e : String) (ud : UserData) (st : Store),
      periodRange today pt pv = some (s, e) →
      (queryRange st.expenses user_id s e ≠ [] ∨ queryRange st.incomes user_id s e ≠ []) →
      (showDeleteEntries user_id today pt pv ud st).1 = .exn .nameError ∧
      (showEditEntries user_id today pt pv ud st).1 = .exn .nameError := by
  refine ⟨by decide, ?_⟩
  intro user_id today pt pv s e ud st hpr hne
  have hcond : ¬ (queryRange st.expenses user_id s e = [] ∧
      queryRange st.incomes user_id s e = []) := by
    rcases hne with h | h
    · exact fun hc => h hc.1
    · exact fun hc => h hc.2
  have hD : returnState "DELETE_NUMBER" = PyOutcome.exn PyErr.nameError := by decide
  have hE : returnState "EDIT_NUMBER" = PyOutcome.exn PyErr.nameError := by decide
  constructor
  · unfold showDeleteEntries
    rw [hpr]
    simp only [if_neg hcond, hD]
  · unfold showEditEntries
    rw [hpr]
    simp only [if_neg hcond, hE]

/-- C10 witness: a user with one expense dated today makes the period
query non-empty, and both list builders then raise the `NameError`. -/
theorem undefined_selection_states_witness :
    (showDeleteEntries 5 "2026-01-05" "today" ""
        {} ⟨[⟨1, 5, "2026-01-05", "10:00:00", "Home", "Rent", ⟨1000, 0⟩, "N/A"⟩], [], 2, 1⟩).1
      = .exn .nameError ∧
    (showEditEntries 5 "2026-01-05" "today" ""
        {} ⟨[⟨1, 5, "2026-01-05", "10:00:00", "Home", "Rent", ⟨1000, 0⟩, "N/A"⟩], [], 2, 1⟩).1
      = .exn .nameError :=
  undefined_selection_states.2 5 "2026-01-05" "today" "" "2026-01-05" "2026-01-05"
    {} ⟨[⟨1, 5, "2026-01-05", "10:00:00", "Home", "Rent", ⟨1000, 0⟩, "N/A"⟩], [], 2, 1⟩
    (by decide) (by decide)

end RegisterTrackBot

namespace RegisterTrackBot

/-- A `DELETE ... WHERE id = ? AND user_id = ?` that matches no row
leaves the table unchanged and reports zero affected rows. -/
theorem sqlDelete_noop (rows : List Entry) (eid : Nat) (A : Int)
    (h : ∀ r ∈ rows, ¬(r.id = eid ∧ r.user_id = A)) :
    sqlDelete rows eid A = (rows, 0) := by
  unfold sqlDelete
  have h1 : rows.filter (fun r => ¬(r.id = eid ∧ r.user_id = A)) = rows := by
    apply List.filter_eq_self.mpr
    intro a ha
    simp only [decide_eq_true_eq]
    exact h a ha
  have h2 : rows.filter (fun r => (r.id = eid ∧ r.user_id = A)) = [] := by
    rw [List.filter_eq_nil_iff]
    intro a ha
    simp only [decide_eq_true_eq]
    exact h a ha
  rw [h1, h2]
  rfl

/-- An `UPDATE ... SET amount = ? WHERE id = ? AND user_id = ?` that
matches no row leaves the table unchanged. -/
theorem sqlUpdateAmount_noop (rows : List Entry) (eid : Nat) (A : Int) (v : PyDecimal)
    (h : ∀ r ∈ rows, ¬(r.id = eid ∧ r.user_id = A)) :
    sqlUpdateAmount rows eid A v = rows := by
  unfold sqlUpdateAmount
  conv_rhs => rw [← List.map_id rows]
  apply List.map_congr_left
  intro a ha
  simp [h a ha]

/-- An `UPDATE ... SET description = ?` that matches no row leaves the
table unchanged. -/
theorem sqlUpdateDescription_noop (rows : List Entry) (eid : Nat) (A : Int) (v : String)
    (h : ∀ r ∈ rows, ¬(r.id = eid ∧ r.user_id = A)) :
    sqlUpdateDescription rows eid A v = rows := by
  unfold sqlUpdateDescription
  conv_rhs => rw [← List.map_id rows]
  apply List.map_congr_left
  intro a ha
  simp [h a ha]

/-- Writing a table's own rows back is the identity. -/
theorem setTable_tableOf (st : Store) (t : String) : setTable st t (tableOf st t) = st := by
  unfold setTable tableOf
  split <;> rfl

end RegisterTrackBot

namespace RegisterTrackBot

/-- C1: for users `A ≠ B` and an entry `e` owned by `B` (ids unique per
table, as the `INTEGER PRIMARY KEY` guarantees), running the delete-flow
deletion or the edit-flow amount/description update as `A` against `e`'s
id leaves the whole store — in particular `e` — unchanged: the
ownership-scoped `WHERE id = ? AND user_id = ?` matches nothing, the
handlers finish normally (`ConversationHandler.END`), and no exception
escapes. -/
theorem tenant_isolation (A B : Int) (e : Entry) (st : Store) (tbl vin dsc : String)
    (v : PyDecimal)
    (hAB : A ≠ B) (hOwn : e.user_id = B)
    (hUniqE : ∀ r ∈ st.expenses, r.id = e.id → r = e)
    (hUniqI : ∀ r ∈ st.incomes, r.id = e.id → r = e)
    (hparse : parseFloat? vin = some (.finite v))
    (hpos : v.isNonPos = false) (hmax : v.gtMaxAmount = false) :
    (deleteNumberHandler "1" A { delete_entries := some [e] } st).2.2 = st ∧
    (deleteNumberHandler "1" A { delete_entries := some [e] } st).1 = .ret .endConv ∧
    (editValueHandler vin A
        { editing_field := some "amount", edit_entry_id := some e.id,
          edit_entry_table := some tbl, edit_entry_type := some "Expense",
          edit_entry_data := some ⟨e.category, e.subcategory, e.amount, e.description⟩ }
        st).2.2 = st ∧
    (editValueHandler vin A
        { editing_field := some "amount", edit_entry_id := some e.id,
          edit_entry_table := some tbl, edit_entry_type := some "Expense",
          edit_entry_data := some ⟨e.category, e.subcategory, e.amount, e.description⟩ }
        st).1 = .ret .endConv ∧
    (editValueHandler dsc A
        { editing_field := some "description", edit_entry_id := some e.id,
          edit_entry_table := some tbl, edit_entry_type := some "Expense",
          edit_entry_data := some ⟨e.category, e.subcategory, e.amount, e.description⟩ }
        st).2.2 = st ∧
    (editValueHandler dsc A
        { editing_field := some "description", edit_entry_id := some e.id,
          edit_entry_table := some tbl, edit_entry_type := some "Expense",
          edit_entry_data := some ⟨e.category, e.subcategory, e.amount, e.description⟩ }
        st).1 = .ret .endConv := by
  have keyE : ∀ r ∈ st.expenses, ¬(r.id = e.id ∧ r.user_id = A) := by
    intro r hr ⟨hid, hu⟩
    have hre := hUniqE r hr hid
    rw [hre] at hu
    exact hAB (hu.symm.trans hOwn)
  have keyI : ∀ r ∈ st.incomes, ¬(r.id = e.id ∧ r.user_id = A) := by
    intro r hr ⟨hid, hu⟩
    have hre := hUniqI r hr hid
    rw [hre] at hu
    exact hAB (hu.symm.trans hOwn)
  have keyT : ∀ t, ∀ r ∈ tableOf st t, ¬(r.id = e.id ∧ r.user_id = A) := by
    intro t
    unfold tableOf
    split
    · exact keyI
    · exact keyE
  have hdel : ∀ t, sqlDelete (tableOf st t) e.id A = (tableOf st t, 0) :=
    fun t => sqlDelete_noop _ _ _ (keyT t)
  have hupA : sqlUpdateAmount (tableOf st tbl) e.id A v = tableOf st tbl :=
    sqlUpdateAmount_noop _ _ _ _ (keyT tbl)
  have hupD : sqlUpdateDescription (tableOf st tbl) e.id A dsc = tableOf st tbl :=
    sqlUpdateDescription_noop _ _ _ _ (keyT tbl)
  have hone : parseInt? "1" = some 1 := by decide
  refine ⟨?_, ?_, ?_, ?_, ?_, ?_⟩
  · unfold deleteNumberHandler
    rw [hone]
    simp [hdel, setTable_tableOf]
  · unfold deleteNumberHandler
    rw [hone]
    simp
  · unfold editValueHandler
    rw [hparse]
    simp [hpos, hmax, hupA, setTable_tableOf]
  · unfold editValueHandler
    rw [hparse]
    simp [hpos, hmax]
  · unfold editValueHandler
    simp [hupD, setTable_tableOf]
  · unfold editValueHandler
    simp

/-- C1 witness: the multi-user scenario of the repository's own test
(user 67890 attacking entry 1 of user 12345). -/
theorem tenant_isolation_witness :
    (deleteNumberHandler "1" 67890
        { delete_entries :=
            some [⟨1, 12345, "2025-11-18", "10:00:00", "Home", "Rent", ⟨1000, 0⟩, "Test"⟩] }
        ⟨[⟨1, 12345, "2025-11-18", "10:00:00", "Home", "Rent", ⟨1000, 0⟩, "Test"⟩], [], 2, 1⟩).2.2
      = ⟨[⟨1, 12345, "2025-11-18", "10:00:00", "Home", "Rent", ⟨1000, 0⟩, "Test"⟩], [], 2, 1⟩ ∧
    (editValueHandler "5" 67890
        { editing_field := some "amount", edit_entry_id := some 1,
          edit_entry_table := some "expenses", edit_entry_type := some "Expense",
          edit_entry_data := some ⟨"Home", "Rent", ⟨1000, 0⟩, "Test"⟩ }
        ⟨[⟨1, 12345, "2025-11-18", "10:00:00", "Home", "Rent", ⟨1000, 0⟩, "Test"⟩], [], 2, 1⟩).2.2
      = ⟨[⟨1, 12345, "2025-11-18", "10:00:00", "Home", "Rent", ⟨1000, 0⟩, "Test"⟩], [], 2, 1⟩ := by
  have h := tenant_isolation 67890 12345
    ⟨1, 12345, "2025-11-18", "10:00:00", "Home", "Rent", ⟨1000, 0⟩, "Test"⟩
    ⟨[⟨1, 12345, "2025-11-18", "10:00:00", "Home", "Rent", ⟨1000, 0⟩, "Test"⟩], [], 2, 1⟩
    "expenses" "5" "x" ⟨5, 0⟩
    (by decide) (by decide) (by decide) (by decide) (by decide) (by decide) (by decide)
  exact ⟨h.1, h.2.2.1⟩

end RegisterTrackBot

namespace RegisterTrackBot

/-- Reading back the table just written. -/
theorem tableOf_setTable (st : Store) (t : String) (rows : List Entry) :
    tableOf (setTable st t rows) t = rows := by
  unfold tableOf setTable
  by_cases h : t = "incomes" <;> simp [h]

/-- A row owned by the deleting user is gone after the ownership-scoped
delete keyed by its id. -/
theorem not_mem_sqlDelete (rows : List Entry) (row : Entry) (uid : Int)
    (hown : row.user_id = uid) : row ∉ (sqlDelete rows row.id uid).1 := by
  unfold sqlDelete
  intro h
  have := (List.mem_filter.mp h).2
  simp [hown] at this

/-- C5 (counterexample): in the delete flow, with a cached list of length
1, the out-of-range selection `"0"` mutates no ledger row but the
handler's `finally` block discards the cached candidate list, so the
subsequent in-range selection `"1"` no longer deletes the entry — it does
not "still succeed against the same list" as claimed. -/
theorem delete_cache_discarded :
    (deleteNumberHandler "0" 5
        { delete_entries :=
            some [⟨1, 5, "2026-01-05", "10:00:00", "Home", "Rent", ⟨10, 0⟩, "N/A"⟩],
          delete_action := some "delete" }
        ⟨[⟨1, 5, "2026-01-05", "10:00:00", "Home", "Rent", ⟨10, 0⟩, "N/A"⟩], [], 2, 1⟩).2.2
      = ⟨[⟨1, 5, "2026-01-05", "10:00:00", "Home", "Rent", ⟨10, 0⟩, "N/A"⟩], [], 2, 1⟩ ∧
    (deleteNumberHandler "0" 5
        { delete_entries :=
            some [⟨1, 5, "2026-01-05", "10:00:00", "Home", "Rent", ⟨10, 0⟩, "N/A"⟩],
          delete_action := some "delete" }
        ⟨[⟨1, 5, "2026-01-05", "10:00:00", "Home", "Rent", ⟨10, 0⟩, "N/A"⟩], [], 2, 1⟩).2.1.delete_entries
      = none ∧
    (deleteNumberHandler "1" 5
        (deleteNumberHandler "0" 5
          { delete_entries :=
              some [⟨1, 5, "2026-01-05", "10:00:00", "Home", "Rent", ⟨10, 0⟩, "N/A"⟩],
            delete_action := some "delete" }
          ⟨[⟨1, 5, "2026-01-05", "10:00:00", "Home", "Rent", ⟨10, 0⟩, "N/A"⟩], [], 2, 1⟩).2.1
        ⟨[⟨1, 5, "2026-01-05", "10:00:00", "Home", "Rent", ⟨10, 0⟩, "N/A"⟩], [], 2, 1⟩).2.2
      = ⟨[⟨1, 5, "2026-01-05", "10:00:00", "Home", "Rent", ⟨10, 0⟩, "N/A"⟩], [], 2, 1⟩ := by
  refine ⟨by decide, by decide, by decide⟩

/-- C5 (amended): selections `1` and `N` succeed (edit: snapshot plus
EDIT_FIELD; delete: the selected owned row is removed and the
conversation ends); out-of-range and non-numeric selections mutate no
ledger row; the edit flow keeps the cached candidate list across such
re-prompts, but the delete flow's `finally` block clears its cached list
on every invocation, so a rejected input destroys the list. -/
theorem selection_bounds_amended :
    (∀ input (ud : UserData), parseInt? input = none →
        (editNumberHandler input ud).2.edit_entries = ud.edit_entries) ∧
    (∀ input (ud : UserData) (c : Int) es, parseInt? input = some c →
        ud.edit_entries = some es → (c < 1 ∨ c > (es.length : Int)) →
        (editNumberHandler input ud).2 = ud ∧
        (editNumberHandler input ud).1 = .ret .noneRet) ∧
    (∀ input (ud : UserData) (c : Int) es, parseInt? input = some c →
        ud.edit_entries = some es → 1 ≤ c → c ≤ (es.length : Int) →
        (editNumberHandler input ud).1 = .ret (.state "EDIT_FIELD") ∧
        (editNumberHandler input ud).2.edit_entry_id =
          some ((es.getD (c - 1).toNat default).id)) ∧
    (∀ input (uid : Int) (ud : UserData) (st : Store),
        (deleteNumberHandler input uid ud st).2.1.delete_entries = none) ∧
    (∀ input (uid : Int) (ud : UserData) (st : Store), parseInt? input = none →
        (deleteNumberHandler input uid ud st).2.2 = st) ∧
    (∀ input (uid : Int) (ud : UserData) (st : Store) (c : Int) es,
        parseInt? input = some c → ud.delete_entries = some es →
        (c < 1 ∨ c > (es.length : Int)) →
        (deleteNumberHandler input uid ud st).2.2 = st) ∧
    (∀ input (uid : Int) (ud : UserData) (st : Store) (c : Int) es,
        parseInt? input = some c → ud.delete_entries = some es →
        1 ≤ c → c ≤ (es.length : Int) →
        (deleteNumberHandler input uid ud st).1 = .ret .endConv ∧
        ((es.getD (c - 1).toNat default).user_id = uid →
          (es.getD (c - 1).toNat default) ∉
            tableOf (deleteNumberHandler input uid ud st).2.2
              (if (es.getD (c - 1).toNat default).category = "Incomes" then "incomes"
               else "expenses"))) := by
  refine ⟨?_, ?_, ?_, ?_, ?_, ?_, ?_⟩
  · intro input ud hp
    unfold editNumberHandler
    rw [hp]
  · intro input ud c es hp hes hrange
    unfold editNumberHandler
    rw [hp, hes]
    simp only [Option.getD_some]
    rw [if_pos (Or.inr hrange)]
    exact ⟨rfl, rfl⟩
  · intro input ud c es hp hes h1 h2
    unfold editNumberHandler
    rw [hp, hes]
    simp only [Option.getD_some]
    have hne : ¬(es = [] ∨ c < 1 ∨ c > (es.length : Int)) := by
      rintro (h | h | h)
      · subst h; simp at h2; omega
      · omega
      · omega
    rw [if_neg hne]
    exact ⟨rfl, rfl⟩
  · intro input uid ud st
    unfold deleteNumberHandler
    cases hp : parseInt? input with
    | none => rfl
    | some c =>
        dsimp only
        split
        · rfl
        · rfl
  · intro input uid ud st hp
    unfold deleteNumberHandler
    rw [hp]
  · intro input uid ud st c es hp hes hrange
    unfold deleteNumberHandler
    rw [hp, hes]
    simp only [Option.getD_some]
    rw [if_pos (Or.inr hrange)]
  · intro input uid ud st c es hp hes h1 h2
    unfold deleteNumberHandler
    rw [hp, hes]
    simp only [Option.getD_some]
    have hne : ¬(es = [] ∨ c < 1 ∨ c > (es.length : Int)) := by
      rintro (h | h | h)
      · subst h; simp at h2; omega
      · omega
      · omega
    rw [if_neg hne]
    dsimp only
    refine ⟨rfl, fun hown hmem => ?_⟩
    rw [tableOf_setTable] at hmem
    exact not_mem_sqlDelete _ _ _ hown hmem

/-- C5 witness: with a one-element cached list, a non-numeric edit
selection keeps the list, the delete handler always drops its list, and
the in-range delete selection removes the owned row. -/
theorem selection_bounds_amended_witness :
    (editNumberHandler "abc"
        { edit_entries :=
            some [⟨1, 5, "2026-01-05", "10:00:00", "Home", "Rent", ⟨10, 0⟩, "N/A"⟩] }).2.edit_entries
      = some [⟨1, 5, "2026-01-05", "10:00:00", "Home", "Rent", ⟨10, 0⟩, "N/A"⟩] ∧
    (deleteNumberHandler "abc" 5
        { delete_entries :=
            some [⟨1, 5, "2026-01-05", "10:00:00", "Home", "Rent", ⟨10, 0⟩, "N/A"⟩] }
        ⟨[⟨1, 5, "2026-01-05", "10:00:00", "Home", "Rent", ⟨10, 0⟩, "N/A"⟩], [], 2, 1⟩).2.1.delete_entries
      = none ∧
    (⟨1, 5, "2026-01-05", "10:00:00", "Home", "Rent", ⟨10, 0⟩, "N/A"⟩ : Entry) ∉
      tableOf
        (deleteNumberHandler "1" 5
          { delete_entries :=
              some [⟨1, 5, "2026-01-05", "10:00:00", "Home", "Rent", ⟨10, 0⟩, "N/A"⟩] }
          ⟨[⟨1, 5, "2026-01-05", "10:00:00", "Home", "Rent", ⟨10, 0⟩, "N/A"⟩], [], 2, 1⟩).2.2
        "expenses" := by
  refine ⟨?_, ?_, ?_⟩
  · exact selection_bounds_amended.1 "abc" _ (by decide)
  · exact selection_bounds_amended.2.2.2.1 "abc" 5 _ _
  · have h := (selection_bounds_amended.2.2.2.2.2.2 "1" 5
      { delete_entries :=
          some [⟨1, 5, "2026-01-05", "10:00:00", "Home", "Rent", ⟨10, 0⟩, "N/A"⟩] }
      ⟨[⟨1, 5, "2026-01-05", "10:00:00", "Home", "Rent", ⟨10, 0⟩, "N/A"⟩], [], 2, 1⟩ 1
      [⟨1, 5, "2026-01-05", "10:00:00", "Home", "Rent", ⟨10, 0⟩, "N/A"⟩]
      (by decide) rfl (by decide) (by decide)).2
    simpa using h (by decide)

end RegisterTrackBot

namespace RegisterTrackBot

/-- C6 (counterexample): `Home`/`Rent` is configured to skip description,
yet the edit flow's description update overwrites the stored `"N/A"` of a
`Home > Rent` expense with the user-supplied text `"hello"` — the
persisted description of a skip-configured entry is not always the
placeholder. -/
theorem edit_overwrites_placeholder :
    should_skip_description "Home" "Rent" = true ∧
    (editValueHandler "hello" 5
        { editing_field := some "description", edit_entry_id := some 1,
          edit_entry_table := some "expenses", edit_entry_type := some "Expense",
          edit_entry_data := some ⟨"Home", "Rent", ⟨10, 0⟩, "N/A"⟩ }
        ⟨[⟨1, 5, "2026-01-05", "10:00:00", "Home", "Rent", ⟨10, 0⟩, "N/A"⟩], [], 2, 1⟩).2.2.expenses
      = [⟨1, 5, "2026-01-05", "10:00:00", "Home", "Rent", ⟨10, 0⟩, "hello"⟩] ∧
    (editValueHandler "hello" 5
        { editing_field := some "description", edit_entry_id := some 1,
          edit_entry_table := some "expenses", edit_entry_type := some "Expense",
          edit_entry_data := some ⟨"Home", "Rent", ⟨10, 0⟩, "N/A"⟩ }
        ⟨[⟨1, 5, "2026-01-05", "10:00:00", "Home", "Rent", ⟨10, 0⟩, "N/A"⟩], [], 2, 1⟩).1
      = .ret .endConv := by
  refine ⟨by decide, by decide, by decide⟩

/-- C6 (amended): the add flow honours the placeholder — with the
`skip_description` flag set, every row the AMOUNT handler persists has
description `"N/A"` and the flow never reaches the DESCRIPTION prompt,
and the SUBCATEGORY handler sets the flag exactly when the collected pair
is configured to skip — but the edit flow's description update performs
no skip check and writes the user-supplied text into any entry. -/
theorem auto_description_amended :
    (∀ input (uid : Int) (nowD nowT : String) (ud : UserData) (st : Store),
        ud.skip_description.getD false = true →
        ∀ e : Entry,
          (e ∈ (amountHandler input uid nowD nowT ud st).2.2.expenses ∨
           e ∈ (amountHandler input uid nowD nowT ud st).2.2.incomes) →
          e ∈ st.expenses ∨ e ∈ st.incomes ∨ e.description = "N/A") ∧
    (∀ input (uid : Int) (nowD nowT : String) (ud : UserData) (st : Store),
        ud.skip_description.getD false = true →
        (amountHandler input uid nowD nowT ud st).1 ≠ .ret (.state "DESCRIPTION")) ∧
    (∀ input (ud : UserData) (c : String), ud.category = some c →
        (c ∈ TEXT_SUBCATEGORY_CATEGORIES →
          2 ≤ (pyStrip (pyReplaceDrop (pyReplaceDrop input "💸 ") "💵 ")).length ∧
          (pyStrip (pyReplaceDrop (pyReplaceDrop input "💸 ") "💵 ")).length ≤ MAX_SUBSCRIPTION) →
        should_skip_description c
            (pyStrip (pyReplaceDrop (pyReplaceDrop input "💸 ") "💵 ")) = true →
        (subcategoryHandler input ud).2.skip_description = some true ∧
        (subcategoryHandler input ud).1 = .ret (.state "AMOUNT")) ∧
    (∀ input (uid : Int) (ud : UserData) (st : Store) (eid : Nat) (tbl : String)
        (data : EditEntryData),
        ud.editing_field = some "description" → ud.edit_entry_id = some eid →
        ud.edit_entry_table = some tbl → ud.edit_entry_data = some data →
        (editValueHandler input uid ud st).2.2 =
          setTable st tbl (sqlUpdateDescription (tableOf st tbl) eid uid input)) := by
  refine ⟨?_, ?_, ?_, ?_⟩
  · intro input uid nowD nowT ud st hskip e he
    unfold amountHandler at he
    cases hp : parseFloat? input with
    | none =>
        rw [hp] at he
        tauto
    | some v =>
        rw [hp] at he
        cases v with
        | infinite b => tauto
        | nan => tauto
        | finite q =>
            dsimp only at he
            by_cases hq1 : q.isNonPos
            · rw [if_pos hq1] at he; tauto
            · rw [if_neg hq1] at he
              by_cases hq2 : q.gtMaxAmount
              · rw [if_pos hq2] at he; tauto
              · rw [if_neg hq2] at he
                have hflag : ({ ud with amount := some q } : UserData).skip_description.getD
                    false = true := hskip
                rw [if_pos hflag] at he
                cases hcat : ({ ud with amount := some q } : UserData).category with
                | none => rw [hcat] at he; tauto
                | some c =>
                    rw [hcat] at he
                    simp only [save_expense] at he
                    by_cases hinc : c = "Incomes"
                    · rw [if_pos hinc] at he
                      simp only [List.mem_append, List.mem_singleton] at he
                      rcases he with he | (he | he)
                      · tauto
                      · tauto
                      · right; right; rw [he]
                    · rw [if_neg hinc] at he
                      simp only [List.mem_append, List.mem_singleton] at he
                      rcases he with (he | he) | he
                      · tauto
                      · right; right; rw [he]
                      · tauto
  · intro input uid nowD nowT ud st hskip
    unfold amountHandler
    cases hp : parseFloat? input with
    | none => simp
    | some v =>
        cases v with
        | infinite b => simp
        | nan => simp
        | finite q =>
            dsimp only
            by_cases hq1 : q.isNonPos
            · rw [if_pos hq1]; simp
            · rw [if_neg hq1]
              by_cases hq2 : q.gtMaxAmount
              · rw [if_pos hq2]; simp
              · rw [if_neg hq2]
                have hflag : ({ ud with amount := some q } : UserData).skip_description.getD
                    false = true := hskip
                rw [if_pos hflag]
                cases hcat : ({ ud with amount := some q } : UserData).category with
                | none => simp
                | some c => simp
  · intro input ud c hcat hlen hskip
    simp only [subcategoryHandler]
    rw [hcat]
    dsimp only
    have hc1 : ¬(c ∈ TEXT_SUBCATEGORY_CATEGORIES ∧
        (pyStrip (pyReplaceDrop (pyReplaceDrop input "💸 ") "💵 ")).length > MAX_SUBSCRIPTION) := by
      rintro ⟨ht, hgt⟩
      exact absurd (hlen ht).2 (by omega)
    have hc2 : ¬(c ∈ TEXT_SUBCATEGORY_CATEGORIES ∧
        (pyStrip (pyReplaceDrop (pyReplaceDrop input "💸 ") "💵 ")).length < 2) := by
      rintro ⟨ht, hlt⟩
      exact absurd (hlen ht).1 (by omega)
    rw [if_neg hc1, if_neg hc2, if_pos hskip]
    exact ⟨rfl, rfl⟩
  · intro input uid ud st eid tbl data hf hid htbl hdata
    simp only [editValueHandler]
    rw [hf, hid, htbl, hdata]
    rw [if_neg (by decide), if_pos rfl]

end RegisterTrackBot

namespace RegisterTrackBot

/-- C6 witness: a skip-configured `Home > Rent` add-flow save at amount
`"10"` yields only placeholder descriptions, and a concrete edit-flow
description update goes through `sqlUpdateDescription` with the
user-supplied text. -/
theorem auto_description_amended_witness :
    ((⟨1, 5, "2026-01-05", "10:00:00", "Home", "Rent", ⟨10, 0⟩, "N/A"⟩ : Entry) ∈
        (⟨[], [], 1, 1⟩ : Store).expenses ∨
      (⟨1, 5, "2026-01-05", "10:00:00", "Home", "Rent", ⟨10, 0⟩, "N/A"⟩ : Entry) ∈
        (⟨[], [], 1, 1⟩ : Store).incomes ∨
      (⟨1, 5, "2026-01-05", "10:00:00", "Home", "Rent", ⟨10, 0⟩, "N/A"⟩ : Entry).description
        = "N/A") ∧
    (editValueHandler "hello" 5
        { editing_field := some "description", edit_entry_id := some 1,
          edit_entry_table := some "expenses", edit_entry_type := some "Expense",
          edit_entry_data := some ⟨"Home", "Rent", ⟨10, 0⟩, "N/A"⟩ }
        ⟨[⟨1, 5, "2026-01-05", "10:00:00", "Home", "Rent", ⟨10, 0⟩, "N/A"⟩], [], 2, 1⟩).2.2 =
      setTable ⟨[⟨1, 5, "2026-01-05", "10:00:00", "Home", "Rent", ⟨10, 0⟩, "N/A"⟩], [], 2, 1⟩
        "expenses"
        (sqlUpdateDescription
          (tableOf ⟨[⟨1, 5, "2026-01-05", "10:00:00", "Home", "Rent", ⟨10, 0⟩, "N/A"⟩], [], 2, 1⟩
            "expenses")
          1 5 "hello") := by
  constructor
  · exact auto_description_amended.1 "10" 5 "2026-01-05" "10:00:00"
      { category := some "Home", subcategory := some "Rent", skip_description := some true }
      ⟨[], [], 1, 1⟩ (by decide)
      ⟨1, 5, "2026-01-05", "10:00:00", "Home", "Rent", ⟨10, 0⟩, "N/A"⟩ (by decide)
  · exact auto_description_amended.2.2.2 "hello" 5
      { editing_field := some "description", edit_entry_id := some 1,
        edit_entry_table := some "expenses", edit_entry_type := some "Expense",
        edit_entry_data := some ⟨"Home", "Rent", ⟨10, 0⟩, "N/A"⟩ }
      ⟨[⟨1, 5, "2026-01-05", "10:00:00", "Home", "Rent", ⟨10, 0⟩, "N/A"⟩], [], 2, 1⟩
      1 "expenses" ⟨"Home", "Rent", ⟨10, 0⟩, "N/A"⟩ rfl rfl rfl rfl

end RegisterTrackBot

namespace RegisterTrackBot

/-- C2: the add flow validates amounts exactly as specified — `0`, `-50`,
`inf`, `nan`, non-numeric text and `1000000` re-prompt the AMOUNT state
with nothing persisted, while `0.01` and `999999` are accepted — but in
the edit-amount flow the re-prompt is broken: a rejected value such as
`-50` evaluates the unbound `EDIT_VALUE` name, the resulting `NameError`
is caught by the generic handler, and the conversation ends with the edit
context cleared instead of re-prompting in the same state (non-numeric
text even escapes as an uncaught `NameError` raised inside the
`ValueError` handler); nothing is persisted either way. -/
theorem edit_amount_validation_divergence :
    (amountHandler "-50" 5 "2026-01-05" "10:00:00" { category := some "Home" } ⟨[], [], 1, 1⟩
      = (.ret (.state "AMOUNT"), { category := some "Home" }, ⟨[], [], 1, 1⟩)) ∧
    (amountHandler "0" 5 "2026-01-05" "10:00:00" { category := some "Home" } ⟨[], [], 1, 1⟩
      = (.ret (.state "AMOUNT"), { category := some "Home" }, ⟨[], [], 1, 1⟩)) ∧
    (amountHandler "abc" 5 "2026-01-05" "10:00:00" { category := some "Home" } ⟨[], [], 1, 1⟩
      = (.ret (.state "AMOUNT"), { category := some "Home" }, ⟨[], [], 1, 1⟩)) ∧
    (amountHandler "inf" 5 "2026-01-05" "10:00:00" { category := some "Home" } ⟨[], [], 1, 1⟩
      = (.ret (.state "AMOUNT"), { category := some "Home" }, ⟨[], [], 1, 1⟩)) ∧
    (amountHandler "nan" 5 "2026-01-05" "10:00:00" { category := some "Home" } ⟨[], [], 1, 1⟩
      = (.ret (.state "AMOUNT"), { category := some "Home" }, ⟨[], [], 1, 1⟩)) ∧
    (amountHandler "1000000" 5 "2026-01-05" "10:00:00" { category := some "Home" }
        ⟨[], [], 1, 1⟩
      = (.ret (.state "AMOUNT"), { category := some "Home" }, ⟨[], [], 1, 1⟩)) ∧
    ((amountHandler "0.01" 5 "2026-01-05" "10:00:00" { category := some "Home" }
        ⟨[], [], 1, 1⟩).1 = .ret (.state "DESCRIPTION")) ∧
    ((amountHandler "999999" 5 "2026-01-05" "10:00:00" { category := some "Home" }
        ⟨[], [], 1, 1⟩).1 = .ret (.state "DESCRIPTION")) ∧
    (editValueHandler "-50" 5
        { editing_field := some "amount", edit_entry_id := some 1,
          edit_entry_table := some "expenses", edit_entry_type := some "Expense",
          edit_entry_data := some ⟨"Home", "Rent", ⟨10, 0⟩, "N/A"⟩ }
        ⟨[⟨1, 5, "2026-01-05", "10:00:00", "Home", "Rent", ⟨10, 0⟩, "N/A"⟩], [], 2, 1⟩
      = (.ret .endConv,
         { edit_action := none },
         ⟨[⟨1, 5, "2026-01-05", "10:00:00", "Home", "Rent", ⟨10, 0⟩, "N/A"⟩], [], 2, 1⟩)) ∧
    (PyOutcome.ret ConvResult.endConv ≠ .ret (.state "EDIT_VALUE")) ∧
    ((editValueHandler "abc" 5
        { editing_field := some "amount", edit_entry_id := some 1,
          edit_entry_table := some "expenses", edit_entry_type := some "Expense",
          edit_entry_data := some ⟨"Home", "Rent", ⟨10, 0⟩, "N/A"⟩ }
        ⟨[⟨1, 5, "2026-01-05", "10:00:00", "Home", "Rent", ⟨10, 0⟩, "N/A"⟩], [], 2, 1⟩).1
      = .exn .nameError) := by
  refine ⟨by decide, by decide, by decide, by decide, by decide, by decide, by decide,
    by decide, by decide, by decide, by decide⟩

end RegisterTrackBot

namespace RegisterTrackBot

/-- `show_edit_entries` never writes the `target_table` session key. -/
theorem showEditEntries_target_table (uid : Int) (today pt pv : String)
    (ud : UserData) (st : Store) :
    (showEditEntries uid today pt pv ud st).2.target_table = ud.target_table := by
  unfold showEditEntries
  cases periodRange today pt pv with
  | none => rfl
  | some r =>
      cases r with
      | mk s e =>
          dsimp only
          split
          · rfl
          · rfl

/-- C9: in the `/edit` period flow the session has no `target_table` key,
`show_edit_entries` leaves it absent, so `handle_edit_number` defaults
the table to `"expenses"`; consequently, selecting any entry from the
combined candidate list — in particular an income entry — makes the
terminal UPDATE run against the `expenses` table keyed by the selected
entry's id and the caller's user id, and the `incomes` table (the
selected income row included) stays unchanged. -/
theorem edit_income_targets_expenses
    (uid : Int) (today pt pv : String) (ud0 : UserData) (st : Store)
    (input vin : String) (c : Int) (es : List Entry) (v : PyDecimal)
    (h0 : ud0.target_table = none)
    (h1 : ((showEditEntries uid today pt pv ud0 st).2).edit_entries = some es)
    (hp : parseInt? input = some c) (hc1 : 1 ≤ c) (hc2 : c ≤ (es.length : Int))
    (hv : parseFloat? vin = some (.finite v))
    (hv1 : v.isNonPos = false) (hv2 : v.gtMaxAmount = false) :
    (showEditEntries uid today pt pv ud0 st).2.target_table = none ∧
    ((editNumberHandler input (showEditEntries uid today pt pv ud0 st).2).2).edit_entry_table
      = some "expenses" ∧
    (editValueHandler vin uid
        { (editNumberHandler input (showEditEntries uid today pt pv ud0 st).2).2 with
            editing_field := some "amount" } st).2.2.incomes = st.incomes ∧
    (editValueHandler vin uid
        { (editNumberHandler input (showEditEntries uid today pt pv ud0 st).2).2 with
            editing_field := some "amount" } st).2.2.expenses
      = sqlUpdateAmount st.expenses ((es.getD (c - 1).toNat default).id) uid v := by
  set ud1 := (showEditEntries uid today pt pv ud0 st).2 with hud1
  have htt : ud1.target_table = none := by
    rw [hud1, showEditEntries_target_table, h0]
  have hne : ¬(es = [] ∨ c < 1 ∨ c > (es.length : Int)) := by
    rintro (h | h | h)
    · subst h; simp at hc2; omega
    · omega
    · omega
  have hnum : editNumberHandler input ud1 =
      (.ret (.state "EDIT_FIELD"),
       { ud1 with
          edit_entry_id := some ((es.getD (c - 1).toNat default).id),
          edit_entry_table := some "expenses",
          edit_entry_type := some (ud1.entry_type.getD "Expense"),
          edit_entry_data := some ⟨(es.getD (c - 1).toNat default).category,
            (es.getD (c - 1).toNat default).subcategory,
            (es.getD (c - 1).toNat default).amount,
            (es.getD (c - 1).toNat default).description⟩,
          edit_entries := none }) := by
    unfold editNumberHandler
    rw [hp, h1, htt]
    simp only [Option.getD_some, Option.getD_none]
    rw [if_neg hne]
  refine ⟨htt, ?_, ?_, ?_⟩
  · rw [hnum]
  · rw [hnum]
    simp only [editValueHandler]
    rw [hv]
    simp only [if_true]
    rw [if_neg (by simp [hv1, hv2])]
    dsimp only
    unfold setTable
    rw [if_neg (by decide)]
  · rw [hnum]
    simp only [editValueHandler]
    rw [hv]
    simp only [if_true]
    rw [if_neg (by simp [hv1, hv2])]
    dsimp only
    unfold setTable tableOf
    rw [if_neg (by decide), if_neg (by decide)]

end RegisterTrackBot

namespace RegisterTrackBot

/-- C9 witness: one expense and one income, both with row id 1; selecting
the income (number 2) and editing its amount to 7 updates the expenses
table at id 1 and leaves the incomes table untouched. -/
theorem edit_income_targets_expenses_witness :
    ((editNumberHandler "2"
        (showEditEntries 5 "2026-01-05" "today" "" { edit_action := some "edit" }
          ⟨[⟨1, 5, "2026-01-05", "09:00:00", "Home", "Rent", ⟨10, 0⟩, "N/A"⟩],
           [⟨1, 5, "2026-01-05", "10:00:00", "Incomes", "Salary", ⟨2000, 0⟩, "N/A"⟩],
           2, 2⟩).2).2).edit_entry_table = some "expenses" ∧
    (editValueHandler "7" 5
        { (editNumberHandler "2"
            (showEditEntries 5 "2026-01-05" "today" "" { edit_action := some "edit" }
              ⟨[⟨1, 5, "2026-01-05", "09:00:00", "Home", "Rent", ⟨10, 0⟩, "N/A"⟩],
               [⟨1, 5, "2026-01-05", "10:00:00", "Incomes", "Salary", ⟨2000, 0⟩, "N/A"⟩],
               2, 2⟩).2).2 with editing_field := some "amount" }
        ⟨[⟨1, 5, "2026-01-05", "09:00:00", "Home", "Rent", ⟨10, 0⟩, "N/A"⟩],
         [⟨1, 5, "2026-01-05", "10:00:00", "Incomes", "Salary", ⟨2000, 0⟩, "N/A"⟩],
         2, 2⟩).2.2.incomes
      = [⟨1, 5, "2026-01-05", "10:00:00", "Incomes", "Salary", ⟨2000, 0⟩, "N/A"⟩] ∧
    (editValueHandler "7" 5
        { (editNumberHandler "2"
            (showEditEntries 5 "2026-01-05" "today" "" { edit_action := some "edit" }
              ⟨[⟨1, 5, "2026-01-05", "09:00:00", "Home", "Rent", ⟨10, 0⟩, "N/A"⟩],
               [⟨1, 5, "2026-01-05", "10:00:00", "Incomes", "Salary", ⟨2000, 0⟩, "N/A"⟩],
               2, 2⟩).2).2 with editing_field := some "amount" }
        ⟨[⟨1, 5, "2026-01-05", "09:00:00", "Home", "Rent", ⟨10, 0⟩, "N/A"⟩],
         [⟨1, 5, "2026-01-05", "10:00:00", "Incomes", "Salary", ⟨2000, 0⟩, "N/A"⟩],
         2, 2⟩).2.2.expenses
      = sqlUpdateAmount
          [⟨1, 5, "2026-01-05", "09:00:00", "Home", "Rent", ⟨10, 0⟩, "N/A"⟩] 1 5 ⟨7, 0⟩ := by
  have h := edit_income_targets_expenses 5 "2026-01-05" "today" ""
    { edit_action := some "edit" }
    ⟨[⟨1, 5, "2026-01-05", "09:00:00", "Home", "Rent", ⟨10, 0⟩, "N/A"⟩],
     [⟨1, 5, "2026-01-05", "10:00:00", "Incomes", "Salary", ⟨2000, 0⟩, "N/A"⟩], 2, 2⟩
    "2" "7" 2
    [⟨1, 5, "2026-01-05", "09:00:00", "Home", "Rent", ⟨10, 0⟩, "N/A"⟩,
     ⟨1, 5, "2026-01-05", "10:00:00", "Incomes", "Salary", ⟨2000, 0⟩, "N/A"⟩]
    ⟨7, 0⟩ rfl (by decide) (by decide) (by decide) (by decide) (by decide)
    (by decide) (by decide)
  exact ⟨h.2.1, h.2.2.1, h.2.2.2⟩

end RegisterTrackBot

namespace RegisterTrackBot

/-- An ASCII digit character has code 48–57. -/
theorem char_digit_bounds (c : Char) (h : c.isDigit = true) :
    48 ≤ c.toNat ∧ c.toNat ≤ 57 := by
  simp [Char.isDigit] at h
  exact h

/-- `digitChar` produces the code of the last decimal digit. -/
theorem digitChar_toNat (n : Nat) : (digitChar n).toNat = 48 + n % 10 := by
  unfold digitChar
  have h : n % 10 < 10 := Nat.mod_lt _ (by norm_num)
  set k := n % 10 with hk
  interval_cases k <;> decide

/-- `digitChar` produces a digit character. -/
theorem digitChar_isDigit (n : Nat) : (digitChar n).isDigit = true := by
  unfold digitChar
  have h : n % 10 < 10 := Nat.mod_lt _ (by norm_num)
  set k := n % 10 with hk
  interval_cases k <;> decide

/-- Both characters of `pad2` are digits. -/
theorem pad2_all_digit (n : Nat) : (pad2 n).all Char.isDigit = true := by
  simp [pad2, digitChar_isDigit]

/-- A digit character is not a separator character. -/
theorem digit_ne_sep (c sep : Char) (h : c.isDigit = true) (hsep : sep.toNat < 48) :
    c ≠ sep := by
  intro he
  subst he
  exact absurd (char_digit_bounds c h).1 (by omega)

/-- Reading back a two-digit zero-padded number. -/
theorem digitsVal_pad2 (n : Nat) (h : n < 100) : digitsVal (pad2 n) = n := by
  simp only [pad2, digitsVal, List.foldl_cons, List.foldl_nil]
  rw [digitChar_toNat, digitChar_toNat]
  have h1 : n / 10 % 10 = n / 10 := Nat.mod_eq_of_lt (by omega)
  omega

/-- Splitting `a ++ sep :: b ++ sep :: c` on `sep` recovers the three
separator-free parts. -/
theorem splitOn_three (sep : Char) (a b c : List Char)
    (ha : ∀ x ∈ a, x ≠ sep) (hb : ∀ x ∈ b, x ≠ sep) (hc : ∀ x ∈ c, x ≠ sep) :
    (a ++ sep :: b ++ sep :: c).splitOn sep = [a, b, c] := by
  show (a ++ sep :: b ++ sep :: c).splitOnP (fun x => x == sep) = [a, b, c]
  have hpa : ∀ x ∈ a, ¬(x == sep) = true := by
    intro x hx
    simpa using ha x hx
  have hpb : ∀ x ∈ b, ¬(x == sep) = true := by
    intro x hx
    simpa using hb x hx
  have hpc : ∀ x ∈ c, ¬(x == sep) = true := by
    intro x hx
    simpa using hc x hx
  rw [List.append_assoc, List.cons_append]
  rw [List.splitOnP_first (fun x => x == sep) a hpa sep (by simp) (b ++ sep :: c),
    List.splitOnP_first (fun x => x == sep) b hpb sep (by simp) c,
    List.splitOnP_eq_single (fun x => x == sep) c hpc]

end RegisterTrackBot

namespace RegisterTrackBot

/-- Digit runs contain no separator such as `'/'` or `'-'`. -/
theorem digits_ne_sep (cs : List Char) (h : cs.all Char.isDigit = true)
    (sep : Char) (hsep : sep.toNat < 48) : ∀ x ∈ cs, x ≠ sep := by
  intro x hx
  exact digit_ne_sep x sep (List.all_eq_true.mp h x hx) hsep

/-- A single digit is at most 9. -/
theorem digitsVal_single_le (c : Char) (h : c.isDigit = true) : digitsVal [c] ≤ 9 := by
  have := char_digit_bounds c h
  simp only [digitsVal, List.foldl_cons, List.foldl_nil]
  omega

/-- Two digits are at most 99. -/
theorem digitsVal_two_le (c1 c2 : Char) (h1 : c1.isDigit = true) (h2 : c2.isDigit = true) :
    digitsVal [c1, c2] ≤ 99 := by
  have b1 := char_digit_bounds c1 h1
  have b2 := char_digit_bounds c2 h2
  simp only [digitsVal, List.foldl_cons, List.foldl_nil]
  omega

/-- Every character `natDecimal` emits is a digit. -/
theorem natDecimalAux_all_digit (fuel n : Nat) :
    (natDecimalAux fuel n).all Char.isDigit = true := by
  induction fuel generalizing n with
  | zero => rfl
  | succ f ih =>
      unfold natDecimalAux
      split
      · simp [digitChar_isDigit]
      · simp [List.all_append, ih, digitChar_isDigit]

/-- Every character `natDecimal` emits is a digit. -/
theorem natDecimal_all_digit (n : Nat) : (natDecimal n).all Char.isDigit = true :=
  natDecimalAux_all_digit _ _

/-- The canonical shape of `YYYY-MM-DD` strings assembled from a four-digit
year part and two zero-padded components. -/
theorem isCanonicalShape_mk (ycs : List Char) (m d : Nat)
    (hyd : ycs.all Char.isDigit = true) (hy4 : ycs.length = 4) :
    isCanonicalShape (String.mk (ycs ++ '-' :: pad2 m ++ '-' :: pad2 d)) = true := by
  unfold isCanonicalShape
  have hsplit : (String.mk (ycs ++ '-' :: pad2 m ++ '-' :: pad2 d)).toList.splitOn '-'
      = [ycs, pad2 m, pad2 d] := by
    show (ycs ++ '-' :: pad2 m ++ '-' :: pad2 d).splitOn '-' = _
    exact splitOn_three '-' _ _ _ (digits_ne_sep _ hyd '-' (by decide))
      (digits_ne_sep _ (pad2_all_digit m) '-' (by decide))
      (digits_ne_sep _ (pad2_all_digit d) '-' (by decide))
  rw [hsplit]
  simp [hyd, hy4, pad2_all_digit, pad2, digitChar_isDigit]

/-- `strftime("%Y-%m-%d")` output always has the canonical shape. -/
theorem isCanonicalShape_toCanonical (dt : YMD) :
    isCanonicalShape (toCanonical dt) = true := by
  unfold toCanonical pad4
  rw [show pad2 (dt.y / 100) ++ pad2 (dt.y % 100) ++ '-' :: pad2 dt.m ++ '-' :: pad2 dt.d
      = (pad2 (dt.y / 100) ++ pad2 (dt.y % 100)) ++ '-' :: pad2 dt.m ++ '-' :: pad2 dt.d
    from by simp [List.append_assoc]]
  exact isCanonicalShape_mk _ dt.m dt.d
    (by simp [List.all_append, pad2_all_digit]) (by simp [pad2])

/-- Parsing the `DD/MM/YY` rendering of a valid date in `strptime`'s
two-digit-year window recovers the date. -/
theorem parseDMY_formatDMY (dt : YMD) (hv : validYMD dt = true)
    (hy1 : 1969 ≤ dt.y) (hy2 : dt.y ≤ 2068) : parseDMY (formatDMY dt) = some dt := by
  have hvp : 1 ≤ dt.y ∧ dt.y ≤ 9999 ∧ 1 ≤ dt.m ∧ dt.m ≤ 12 ∧ 1 ≤ dt.d ∧
      dt.d ≤ daysInMonth dt.y dt.m := by
    simpa [validYMD] using hv
  obtain ⟨h1, h2, h3, h4, h5, h6⟩ := hvp
  have hsplit : (formatDMY dt).toList.splitOn '/' = [pad2 dt.d, pad2 dt.m, pad2 (dt.y % 100)] := by
    show (pad2 dt.d ++ '/' :: pad2 dt.m ++ '/' :: pad2 (dt.y % 100)).splitOn '/' = _
    exact splitOn_three '/' _ _ _
      (digits_ne_sep _ (pad2_all_digit _) '/' (by decide))
      (digits_ne_sep _ (pad2_all_digit _) '/' (by decide))
      (digits_ne_sep _ (pad2_all_digit _) '/' (by decide))
  have hdm31 : daysInMonth dt.y dt.m ≤ 31 := by
    unfold daysInMonth
    split
    · split <;> omega
    · split <;> omega
  have hdval : digitsVal (pad2 dt.d) = dt.d := digitsVal_pad2 _ (by omega)
  have hmval : digitsVal (pad2 dt.m) = dt.m := digitsVal_pad2 _ (by omega)
  have hyval : digitsVal (pad2 (dt.y % 100)) = dt.y % 100 :=
    digitsVal_pad2 _ (Nat.mod_lt _ (by norm_num))
  have hd : dayTok (pad2 dt.d) = true := by
    unfold dayTok
    rw [decide_eq_true_eq]
    refine ⟨pad2_all_digit _, Or.inr ⟨rfl, ?_, ?_⟩⟩
    · rw [hdval]; omega
    · rw [hdval]
      omega
  have hm : monthTok (pad2 dt.m) = true := by
    unfold monthTok
    rw [decide_eq_true_eq]
    exact ⟨pad2_all_digit _, Or.inr ⟨rfl, by rw [hmval]; omega, by rw [hmval]; omega⟩⟩
  have hy : yearTok2 (pad2 (dt.y % 100)) = true := by
    unfold yearTok2
    rw [decide_eq_true_eq]
    exact ⟨pad2_all_digit _, rfl⟩
  have hpivot : (if digitsVal (pad2 (dt.y % 100)) ≤ 68 then 2000 + digitsVal (pad2 (dt.y % 100))
      else 1900 + digitsVal (pad2 (dt.y % 100))) = dt.y := by
    rw [hyval]
    split <;> omega
  unfold parseDMY
  rw [hsplit]
  dsimp only
  rw [if_pos ⟨hd, hm, hy⟩, hpivot, hdval, hmval, if_pos h6]

/-- What a successful `strptime("%d/%m/%y")` parse guarantees: a valid
calendar date in the pivot window. -/
theorem parseDMY_valid (s : String) (dt : YMD) (h : parseDMY s = some dt) :
    validYMD dt = true ∧ 1969 ≤ dt.y ∧ dt.y ≤ 2068 := by
  unfold parseDMY at h
  split at h
  case h_2 => exact absurd h (by simp)
  case h_1 dcs mcs ycs heq =>
    split at h
    case isFalse => exact absurd h (by simp)
    case isTrue hcond =>
      obtain ⟨hdTok, hmTok, hyTok⟩ := hcond
      rw [dayTok, decide_eq_true_eq] at hdTok
      rw [monthTok, decide_eq_true_eq] at hmTok
      rw [yearTok2, decide_eq_true_eq] at hyTok
      dsimp only at h
      have hy99 : digitsVal ycs ≤ 99 := by
        obtain ⟨hyd, hyl⟩ := hyTok
        match ycs, hyl with
        | [c1, c2], _ =>
            simp only [List.all_cons, List.all_nil, Bool.and_eq_true] at hyd
            exact digitsVal_two_le c1 c2 hyd.1 hyd.2.1
      have hm12 : 1 ≤ digitsVal mcs ∧ digitsVal mcs ≤ 12 := by
        obtain ⟨hmd, hml⟩ := hmTok
        rcases hml with ⟨hl, hv1⟩ | ⟨hl, hv1, hv2⟩
        · match mcs, hl with
          | [c], _ =>
              simp only [List.all_cons, List.all_nil, Bool.and_eq_true] at hmd
              have := digitsVal_single_le c hmd.1
              omega
        · omega
      have hd1 : 1 ≤ digitsVal dcs := by
        obtain ⟨hdd, hdl⟩ := hdTok
        rcases hdl with ⟨hl, hv1⟩ | ⟨hl, hv1, hv2⟩ <;> omega
      set Y := (if digitsVal ycs ≤ 68 then 2000 + digitsVal ycs
        else 1900 + digitsVal ycs) with hY
      have hYb : 1969 ≤ Y ∧ Y ≤ 2068 := by
        rw [hY]
        split <;> omega
      split at h
      case isFalse => exact absurd h (by simp)
      case isTrue hdays =>
        have hdt : dt = ⟨Y, digitsVal mcs, digitsVal dcs⟩ := by
          injection h with h'
          exact h'.symm
        subst hdt
        refine ⟨?_, hYb.1, hYb.2⟩
        unfold validYMD
        rw [decide_eq_true_eq]
        exact ⟨by show 1 ≤ Y; omega, by show Y ≤ 9999; omega, hm12.1, hm12.2, hd1, hdays⟩

end RegisterTrackBot

namespace RegisterTrackBot

/-- Whatever date string `handle_summary_day` accepts and passes on is in
canonical `YYYY-MM-DD` shape. -/
theorem handleSummaryDay_canonical (input : String) (cy : Nat) (t : String)
    (h : handleSummaryDay input cy = some t) : isCanonicalShape t = true := by
  unfold handleSummaryDay at h
  dsimp only at h
  split at h
  case h_1 heq => exact absurd h (by simp)
  case h_2 t' heq =>
    split at h
    case isFalse => exact absurd h (by simp)
    case isTrue hpc =>
      have ht : t = String.mk t' := by
        injection h with h'
        exact h'.symm
      subst ht
      split at heq
      case h_1 dcs mcs hsp =>
        split at heq
        case isFalse => exact absurd heq (by simp)
        case isTrue hguard =>
          have ht' : t' = natDecimal cy ++ '-' :: pad2 (digitsVal mcs)
              ++ '-' :: pad2 (digitsVal dcs) := by
            injection heq with h''
            exact h''.symm
          subst ht'
          have hsplit : (String.mk (natDecimal cy ++ '-' :: pad2 (digitsVal mcs)
              ++ '-' :: pad2 (digitsVal dcs))).toList.splitOn '-'
              = [natDecimal cy, pad2 (digitsVal mcs), pad2 (digitsVal dcs)] := by
            show (natDecimal cy ++ '-' :: pad2 (digitsVal mcs)
              ++ '-' :: pad2 (digitsVal dcs)).splitOn '-' = _
            exact splitOn_three '-' _ _ _
              (digits_ne_sep _ (natDecimal_all_digit cy) '-' (by decide))
              (digits_ne_sep _ (pad2_all_digit _) '-' (by decide))
              (digits_ne_sep _ (pad2_all_digit _) '-' (by decide))
          unfold parseCanonical at hpc
          rw [hsplit] at hpc
          dsimp only at hpc
          split at hpc
          case isFalse => exact absurd hpc (by simp)
          case isTrue hcond =>
            exact isCanonicalShape_mk _ _ _ hcond.1.1 hcond.1.2
      case h_2 dcs mcs ycs hsp =>
        split at heq
        case isFalse => exact absurd heq (by simp)
        case isTrue hguard =>
          have ht' : t' = ycs ++ '-' :: pad2 (digitsVal mcs)
              ++ '-' :: pad2 (digitsVal dcs) := by
            injection heq with h''
            exact h''.symm
          subst ht'
          exact isCanonicalShape_mk _ _ _ hguard.2.2.2.2.2.2.1 hguard.2.2.2.2.2.2.2
      case h_3 =>
        split at heq
        case isFalse => exact absurd heq (by simp)
        case isTrue hshape =>
          have ht' : t' = trimChars input.toList := by
            injection heq with h''
            exact h''.symm
          subst ht'
          exact hshape

end RegisterTrackBot

namespace RegisterTrackBot

/-- C7: `DD/MM/YY` round-trip — parsing the `strftime` rendering of any
valid date in the two-digit-year window reproduces the date; every date
the expense-day handler passes to storage/queries, and every date the
summary-day handler accepts from any of its input grammars, is in
canonical `YYYY-MM-DD` shape; invalid calendar dates such as `31/02` are
rejected with a re-prompt (`none`) and never clamped. -/
theorem date_canonicalization :
    (∀ dt : YMD, validYMD dt = true → 1969 ≤ dt.y → dt.y ≤ 2068 →
        parseDMY (formatDMY dt) = some dt) ∧
    (∀ (input : String) (dt : YMD), parseDMY (pyStrip input) = some dt →
        handleExpenseDay input = some (toCanonical dt) ∧
        isCanonicalShape (toCanonical dt) = true ∧ validYMD dt = true) ∧
    (∀ (input : String) (cy : Nat) (t : String), handleSummaryDay input cy = some t →
        isCanonicalShape t = true) ∧
    handleExpenseDay "31/02/26" = none ∧
    handleSummaryDay "31/02" 2026 = none ∧
    handleSummaryDay "2026-02-31" 2026 = none := by
  refine ⟨parseDMY_formatDMY, ?_, handleSummaryDay_canonical, by decide, by decide, by decide⟩
  intro input dt h
  refine ⟨?_, isCanonicalShape_toCanonical dt, (parseDMY_valid _ _ h).1⟩
  unfold handleExpenseDay
  rw [h]
  rfl

/-- C7 witness: 3 February 2026 round-trips through `DD/MM/YY`, and the
expense-day handler canonicalizes `"03/02/26"` to `"2026-02-03"`. -/
theorem date_canonicalization_witness :
    parseDMY (formatDMY ⟨2026, 2, 3⟩) = some ⟨2026, 2, 3⟩ ∧
    handleExpenseDay "03/02/26" = some (toCanonical ⟨2026, 2, 3⟩) := by
  refine ⟨date_canonicalization.1 ⟨2026, 2, 3⟩ (by decide) (by decide) (by decide),
    (date_canonicalization.2.1 "03/02/26" ⟨2026, 2, 3⟩ (by decide)).1⟩

end RegisterTrackBot
